import Mathlib

/-!
Verification development for the console fishing game (src/fishing.py).

The engine is shallowly embedded: Python dictionaries become structures or
association lists (Python dicts preserve insertion order, which the lists
model directly), Python numbers are modelled as exact rationals or naturals,
and every use of the random module becomes an explicit parameter (the roll
or choice index that the random call would have produced).  The SHA-256
digest from hashlib is an external collaborator and is modelled as an
explicit function parameter from strings to strings; every theorem below is
insensitive to the concrete digest function.  File input and output is
modelled by the byte string written to, or read from, the save file.
-/

namespace Fishing

/-! ## JSON documents

Model of the JSON values produced by json.dump and consumed by json.load.
Numbers are exact rationals; the concrete documents used in theorems below
only contain integers, whose rendering matches Python exactly. -/

inductive JVal where
  | jnull : JVal
  | jbool : Bool → JVal
  | jnum : ℚ → JVal
  | jstr : String → JVal
  | jarr : List JVal → JVal
  | jobj : List (String × JVal) → JVal

/-- Renders a JSON number the way Python renders an int.  The documents
serialized in the theorems below only contain integers (denominator 1); the
non-integer branch is deterministic filler that is never reached there. -/
def renderNum (q : ℚ) : String :=
  if q.den = 1 then toString q.num else toString q

/-- Renders a JSON string literal.  The strings appearing in the game state
(fish names, zone names, rarities, the event flag, hex digests) contain no
quote, backslash or control character, so no escaping is required. -/
def renderStr (s : String) : String :=
  "\"" ++ s ++ "\""

def joinSep (sep : String) : List String → String
  | [] => ""
  | [x] => x
  | x :: xs => x ++ sep ++ joinSep sep xs

/-- Insertion sort of object members by key, modelling sort_keys=True
(Python sorts string keys by code point, which is the Lean String order). -/
def insertKV (x : String × JVal) : List (String × JVal) → List (String × JVal)
  | [] => [x]
  | y :: ys => if x.1 ≤ y.1 then x :: y :: ys else y :: insertKV x ys

def sortKVs : List (String × JVal) → List (String × JVal)
  | [] => []
  | x :: xs => insertKV x (sortKVs xs)

mutual
/-- Recursively sorts every object of a document by key: the shape that
json.dumps(v, sort_keys=True) serializes. -/
def sortDeep : JVal → JVal
  | .jnull => .jnull
  | .jbool b => .jbool b
  | .jnum q => .jnum q
  | .jstr s => .jstr s
  | .jarr xs => .jarr (sortDeepList xs)
  | .jobj kvs => .jobj (sortKVs (sortDeepKVs kvs))

def sortDeepList : List JVal → List JVal
  | [] => []
  | x :: xs => sortDeep x :: sortDeepList xs

def sortDeepKVs : List (String × JVal) → List (String × JVal)
  | [] => []
  | (k, v) :: kvs => (k, sortDeep v) :: sortDeepKVs kvs
end

mutual
/-- Compact rendering with the default Python separators (", " and ": "). -/
def renderCompact : JVal → String
  | .jnull => "null"
  | .jbool b => if b then "true" else "false"
  | .jnum q => renderNum q
  | .jstr s => renderStr s
  | .jarr xs => "[" ++ joinSep ", " (renderCompactList xs) ++ "]"
  | .jobj kvs => "\x7b" ++ joinSep ", " (renderCompactKVs kvs) ++ "\x7d"

def renderCompactList : List JVal → List String
  | [] => []
  | x :: xs => renderCompact x :: renderCompactList xs

def renderCompactKVs : List (String × JVal) → List String
  | [] => []
  | (k, v) :: kvs => (renderStr k ++ ": " ++ renderCompact v) :: renderCompactKVs kvs
end

/-- Model of json.dumps(v, sort_keys=True): compact separators, keys sorted.
This canonical serialization is the digest input in save_game / load_game. -/
def dumpsSorted (v : JVal) : String :=
  renderCompact (sortDeep v)

def pad (n : Nat) : String := String.mk (List.replicate n ' ')

mutual
/-- Model of json.dump(v, f, indent=2): the byte string actually written to
the save file (keys in insertion order, two-space indentation). -/
def dumpsIndent (ind : Nat) : JVal → String
  | .jnull => "null"
  | .jbool b => if b then "true" else "false"
  | .jnum q => renderNum q
  | .jstr s => renderStr s
  | .jarr [] => "[]"
  | .jarr (x :: xs) =>
      "[\n" ++ joinSep ",\n" (dumpsIndentList (ind + 2) (x :: xs)) ++ "\n" ++ pad ind ++ "]"
  | .jobj [] => "{}"
  | .jobj (kv :: kvs) =>
      "\x7b\n" ++ joinSep ",\n" (dumpsIndentKVs (ind + 2) (kv :: kvs)) ++ "\n" ++ pad ind ++ "\x7d"

def dumpsIndentList (ind : Nat) : List JVal → List String
  | [] => []
  | x :: xs => (pad ind ++ dumpsIndent ind x) :: dumpsIndentList ind xs

def dumpsIndentKVs (ind : Nat) : List (String × JVal) → List String
  | [] => []
  | (k, v) :: kvs =>
      (pad ind ++ renderStr k ++ ": " ++ dumpsIndent ind v) :: dumpsIndentKVs ind kvs
end

/-! ### JSON parser (model of json.load)

A fuel-indexed recursive-descent parser over the character list of the file.
It accepts the four JSON whitespace characters between tokens, exactly as
Python json.load does.  String literals are read up to the closing quote
(the documents exercised contain no escape sequences) and numbers are
optionally signed integers (the documents exercised contain no floats). -/

def isJsonWs (c : Char) : Bool :=
  c = ' ' ∨ c = '\n' ∨ c = '\t' ∨ c = '\r'

def skipWs : List Char → List Char
  | [] => []
  | c :: cs => if isJsonWs c then skipWs cs else c :: cs

def readStringChars : List Char → Option (List Char × List Char)
  | [] => none
  | c :: cs =>
      if c = '"' then some ([], cs)
      else if c = '\\' then none
      else match readStringChars cs with
        | some (s, rest) => some (c :: s, rest)
        | none => none

def readDigits : List Char → List Char × List Char
  | [] => ([], [])
  | c :: cs =>
      if c.isDigit then
        let (ds, rest) := readDigits cs
        (c :: ds, rest)
      else ([], c :: cs)

def digitsToNat : List Char → Nat
  | [] => 0
  | ds => ds.foldl (fun acc c => acc * 10 + (c.toNat - 48)) 0

mutual
def parseVal (fuel : Nat) (cs : List Char) : Option (JVal × List Char) :=
  match fuel with
  | 0 => none
  | fuel + 1 =>
    match skipWs cs with
    | [] => none
    | c :: rest =>
      if c = 'n' then
        match rest with
        | 'u' :: 'l' :: 'l' :: r => some (.jnull, r)
        | _ => none
      else if c = 't' then
        match rest with
        | 'r' :: 'u' :: 'e' :: r => some (.jbool true, r)
        | _ => none
      else if c = 'f' then
        match rest with
        | 'a' :: 'l' :: 's' :: 'e' :: r => some (.jbool false, r)
        | _ => none
      else if c = '"' then
        match readStringChars rest with
        | some (s, r) => some (.jstr (String.mk s), r)
        | none => none
      else if c = '[' then
        match skipWs rest with
        | ']' :: r => some (.jarr [], r)
        | r => match parseItems fuel r with
          | some (xs, r2) => some (.jarr xs, r2)
          | none => none
      else if c = '{' then
        match skipWs rest with
        | '}' :: r => some (.jobj [], r)
        | r => match parseMembers fuel r with
          | some (kvs, r2) => some (.jobj kvs, r2)
          | none => none
      else if c = '-' then
        match readDigits rest with
        | ([], _) => none
        | (ds, r) => some (.jnum (-(digitsToNat ds : ℚ)), r)
      else if c.isDigit then
        let (ds, r) := readDigits (c :: rest)
        some (.jnum (digitsToNat ds : ℚ), r)
      else none

def parseItems (fuel : Nat) (cs : List Char) : Option (List JVal × List Char) :=
  match fuel with
  | 0 => none
  | fuel + 1 =>
    match parseVal fuel cs with
    | none => none
    | some (v, r) =>
      match skipWs r with
      | ',' :: r2 =>
          match parseItems fuel r2 with
          | some (xs, r3) => some (v :: xs, r3)
          | none => none
      | ']' :: r2 => some ([v], r2)
      | _ => none

def parseMembers (fuel : Nat) (cs : List Char) :
    Option (List (String × JVal) × List Char) :=
  match fuel with
  | 0 => none
  | fuel + 1 =>
    match skipWs cs with
    | '"' :: r =>
      match readStringChars r with
      | none => none
      | some (k, r2) =>
        match skipWs r2 with
        | ':' :: r3 =>
          match parseVal fuel r3 with
          | none => none
          | some (v, r4) =>
            match skipWs r4 with
            | ',' :: r5 =>
                match parseMembers fuel r5 with
                | some (kvs, r6) => some ((String.mk k, v) :: kvs, r6)
                | none => none
            | '}' :: r5 => some ([(String.mk k, v)], r5)
            | _ => none
        | _ => none
    | _ => none
end

/-- Model of json.load applied to the full text of the save file: the parse
must consume the whole input up to trailing whitespace. -/
def loads (s : String) : Option JVal :=
  match parseVal (s.length + 1) s.data with
  | some (v, r) => if skipWs r = [] then some v else none
  | none => none

/-- Replaces the byte at position k of the stored document with c: the
single-byte tamper considered by the specification. -/
def tamperAt (s : String) (k : Nat) (c : Char) : String :=
  String.mk (s.data.set k c)

/-! ## Catalog data

Transcription of the module-level fish tables.  Optional dictionary keys
become Option fields with default none.  Prices are exact rationals. -/

/-- Decimal prices such as 1.25 are written as exact rationals via mkRat
(mkRat 5 4 is the value 1.25). -/
structure FishDef where
  name : String
  rarity : String
  price : Option ℚ := none
  base_price : Option ℚ := none
  xp : Option Nat := none
  time_of_day : Option (List String) := none
  seasons : Option (List String) := none
deriving DecidableEq, Repr

def FISH_LAKE_BASE : List FishDef := [
  { name := "Carp", rarity := "Common", price := some 1, xp := some 5,
    seasons := some ["Spring", "Summer"] },
  { name := "Tilapia", rarity := "Common", price := some (mkRat 5 4), xp := some 5 },
  { name := "Grass carp", rarity := "Uncommon", price := some 5, xp := some 7 },
  { name := "Catfish", rarity := "Rare", price := some 10, xp := some 10,
    time_of_day := some ["Night"] },
  { name := "Snakehead fish", rarity := "Legendary", price := some 50, xp := some 50 },
  { name := "Bluegill", rarity := "Common", price := some 3, xp := some 5,
    time_of_day := some ["Day"] },
  { name := "Northern Pike", rarity := "Uncommon", price := some 12, xp := some 15 },
  { name := "Largemouth Bass", rarity := "Common", price := some 8, xp := some 10 },
  { name := "Rainbow Trout", rarity := "Uncommon", price := some 15, xp := some 12,
    time_of_day := some ["Day"] },
  { name := "Yellow Perch", rarity := "Common", price := some 5, xp := some 7,
    seasons := some ["Autumn", "Winter"] },
  { name := "Muskellunge", rarity := "Legendary", price := some 40, xp := some 35,
    seasons := some ["Summer"] },
  { name := "Walleye", rarity := "Common", price := some 7, xp := some 9 },
  { name := "Lake Sturgeon", rarity := "Rare", price := some 20, xp := some 25 },
  { name := "White Bass", rarity := "Uncommon", price := some 6, xp := some 8 },
  { name := "Channel Catfish", rarity := "Rare", price := some 18, xp := some 20 }]

def FISH_SEA_BASE : List FishDef := [
  { name := "Starfish", rarity := "Uncommon", base_price := some (mkRat 5 4), xp := some 7 },
  { name := "Tuna", rarity := "Rare", base_price := some 2, xp := some 10 },
  { name := "Shark", rarity := "Rare", base_price := some 7, xp := some 10 },
  { name := "Whale", rarity := "Legendary", base_price := some 5, xp := some 50 },
  { name := "Flying Fish", rarity := "Uncommon", base_price := some (mkRat 5 2), xp := some 10 },
  { name := "Swordfish", rarity := "Rare", base_price := some 18, xp := some 30 },
  { name := "Electric Eel", rarity := "Rare", base_price := some 22, xp := some 30 },
  { name := "Lionfish", rarity := "Epic", base_price := some 35, xp := some 100 },
  { name := "Giant Blue Marlin", rarity := "Legendary", base_price := some 55, xp := some 1000 },
  { name := "Sunfish", rarity := "Mythical", base_price := some 70, xp := some 1000 },
  { name := "Dolphin", rarity := "Uncommon", base_price := some 15, xp := some 20 },
  { name := "Barracuda", rarity := "Rare", base_price := some 30, xp := some 40 },
  { name := "Clownfish", rarity := "Common", base_price := some 6, xp := some 8 },
  { name := "Mahi-Mahi", rarity := "Rare", base_price := some 25, xp := some 30 },
  { name := "Blue Marlin", rarity := "Legendary", base_price := some 90, xp := some 100 },
  { name := "Kingfish", rarity := "Uncommon", base_price := some 18, xp := some 22 },
  { name := "Emperor Angelfish", rarity := "Rare", base_price := some 35, xp := some 45 },
  { name := "Grouper", rarity := "Uncommon", base_price := some 12, xp := some 16 },
  { name := "Triggerfish", rarity := "Rare", base_price := some 20, xp := some 25 },
  { name := "Napoleon Wrasse", rarity := "Legendary", base_price := some 60, xp := some 80 }]

def FISH_BATHYAL_BASE : List FishDef := [
  { name := "Deep-sea Dragonfish", rarity := "Rare", base_price := some 35, xp := some 45 },
  { name := "Lanternfish", rarity := "Uncommon", base_price := some 15, xp := some 18 },
  { name := "Anglerfish", rarity := "Uncommon", base_price := some 20, xp := some 25 },
  { name := "Black Swallower", rarity := "Legendary", base_price := some 90, xp := some 120 },
  { name := "Goblin Shark", rarity := "Legendary", base_price := some 50, xp := some 70 },
  { name := "Cusk Eel", rarity := "Rare", base_price := some 25, xp := some 30 },
  { name := "Viperfish", rarity := "Rare", base_price := some 30, xp := some 40 },
  { name := "Giant Squid", rarity := "Legendary", base_price := some 80, xp := some 100 },
  { name := "Brilliant Lanternfish", rarity := "Rare", base_price := some 18, xp := some 22 },
  { name := "Swallowtail", rarity := "Uncommon", base_price := some 12, xp := some 15 }]

def FISH_ABYSS_TRENCH_BASE : List FishDef := [
  { name := "Lanternfish", rarity := "Common", price := some 15 },
  { name := "Angler Leviathan", rarity := "Legendary", price := some 100, xp := some 150 },
  { name := "Giant Squid", rarity := "Legendary", price := some 75, xp := some 100 },
  { name := "Ancient Key", rarity := "Legendary", price := some 25 },
  { name := "Abyssal Octopus", rarity := "Rare", price := some 50, xp := some 60 },
  { name := "Cusk Eel", rarity := "Rare", price := some 40, xp := some 50 },
  { name := "Black Swallower", rarity := "Legendary", price := some 80, xp := some 120 },
  { name := "Abyssal Dragonfish", rarity := "Rare", price := some 60, xp := some 70 },
  { name := "Swallower Eel", rarity := "Rare", price := some 50, xp := some 60 },
  { name := "Abyssal Squid", rarity := "Rare", price := some 70, xp := some 80 },
  { name := "Giant Anglerfish", rarity := "Legendary", price := some 100, xp := some 130 },
  { name := "Benthic Eel", rarity := "Uncommon", price := some 30, xp := some 40 },
  { name := "Abyssal Leviathan", rarity := "Legendary", price := some 200, xp := some 350 },
  { name := "Trench Dragonfish", rarity := "Rare", price := some 80, xp := some 120 },
  { name := "Bioluminescent Squid", rarity := "Rare", price := some 50, xp := some 75 },
  { name := "Ghost Shark", rarity := "Legendary", price := some 150, xp := some 200 },
  { name := "Colossal Squid", rarity := "Mythical", price := some 250, xp := some 400 },
  { name := "Abyssal Angler", rarity := "Legendary", price := some 175, xp := some 250 },
  { name := "Barreleye Fish", rarity := "Rare", price := some 40, xp := some 55 },
  { name := "Abyssal Cusk Eel", rarity := "Common", price := some 20, xp := some 30 },
  { name := "Abyssal Lanternfish", rarity := "Uncommon", price := some 25, xp := some 40 },
  { name := "Giant Fangtooth", rarity := "Legendary", price := some 100, xp := some 150 }]

def FISH_ANCIENT_SEA_BASE : List FishDef := [
  { name := "Mosasaurus", rarity := "Legendary", price := some 350, xp := some 500 },
  { name := "Dunkleosteus", rarity := "Mythical", price := some 500, xp := some 700 },
  { name := "Megalodon", rarity := "Mythical", price := some 1000, xp := some 1500 },
  { name := "Leedsichthys", rarity := "Exotic", price := some 250, xp := some 300 },
  { name := "Shonisaurus", rarity := "Legendary", price := some 300, xp := some 400 },
  { name := "Ichthyosaurus", rarity := "Legendary", price := some 200, xp := some 250 },
  { name := "Tylosaurus", rarity := "Legendary", price := some 250, xp := some 300 },
  { name := "Pliosaurus", rarity := "Legendary", price := some 350, xp := some 500 },
  { name := "Tyrannosaurus Rex", rarity := "Mythical", price := some 600, xp := some 800 },
  { name := "Sharksaurus", rarity := "Legendary", price := some 450, xp := some 600 },
  { name := "Acanthodes", rarity := "Exotic", price := some 300, xp := some 350 }]

def FISH_MYSTIC_SPRING_BASE : List FishDef := [
  { name := "Prism Trout", rarity := "Rare", price := some 15, xp := some 10 },
  { name := "Spirit Koi", rarity := "Epic", price := some 25, xp := some 25 },
  { name := "Phoenix Scale Carp", rarity := "Mythical", price := some 50, xp := some 40 },
  { name := "Moonlit Koi", rarity := "Mythical", price := some 100, xp := some 150 },
  { name := "Water Sprite", rarity := "Epic", price := some 75, xp := some 100 },
  { name := "Crystal Trout", rarity := "Legendary", price := some 120, xp := some 200 },
  { name := "Spirit Nymph", rarity := "Epic", price := some 90, xp := some 120 },
  { name := "Water Dragonfish", rarity := "Rare", price := some 45, xp := some 60 },
  { name := "Moonbeam Bass", rarity := "Rare", price := some 40, xp := some 50 },
  { name := "Mystic Swallower", rarity := "Legendary", price := some 150, xp := some 250 },
  { name := "Luminous Catfish", rarity := "Uncommon", price := some 25, xp := some 35 },
  { name := "Frostfin Koi", rarity := "Rare", price := some 50, xp := some 70 },
  { name := "Glimmering Angelfish", rarity := "Epic", price := some 60, xp := some 80 }]

/-- Boss names per zone (ZONE_BOSS_MAP, warnings omitted as rendering). -/
def ZONE_BOSS_NAMES : List (String × String) := [
  ("Lake", "The Drowned King"),
  ("Sea", "Kraken"),
  ("Bathyal", "Ancient Leviathan"),
  ("Mystic Spring", "Mystic Dragonfish"),
  ("Abyss Trench", "Abyss King"),
  ("Ancient Sea", "Godfish Eternus")]

/-- The zone fish lists after the module-level boss injection (each zone list
gets its boss appended with rarity "???"). -/
def FISH_LAKE : List FishDef :=
  FISH_LAKE_BASE ++
    [{ name := "The Drowned King", rarity := "???", price := some 1000, xp := some 6000 }]

def FISH_SEA : List FishDef :=
  FISH_SEA_BASE ++
    [{ name := "Kraken", rarity := "???", base_price := some 1000, xp := some 7000 }]

def FISH_BATHYAL : List FishDef :=
  FISH_BATHYAL_BASE ++
    [{ name := "Ancient Leviathan", rarity := "???", base_price := some 1000,
       xp := some 8000 }]

def FISH_MYSTIC_SPRING : List FishDef :=
  FISH_MYSTIC_SPRING_BASE ++
    [{ name := "Mystic Dragonfish", rarity := "???", price := some 1000,
       xp := some 9000 }]

def FISH_ABYSS_TRENCH : List FishDef :=
  FISH_ABYSS_TRENCH_BASE ++
    [{ name := "Abyss King", rarity := "???", price := some 1000, xp := some 9500 }]

def FISH_ANCIENT_SEA : List FishDef :=
  FISH_ANCIENT_SEA_BASE ++
    [{ name := "Godfish Eternus", rarity := "???", price := some 1000,
       xp := some 10000 }]

def ZONE_FISH_MAP : List (String × List FishDef) := [
  ("Lake", FISH_LAKE),
  ("Sea", FISH_SEA),
  ("Bathyal", FISH_BATHYAL),
  ("Mystic Spring", FISH_MYSTIC_SPRING),
  ("Abyss Trench", FISH_ABYSS_TRENCH),
  ("Ancient Sea", FISH_ANCIENT_SEA)]

/-- The six zone names in ZONE_FISH_MAP iteration order. -/
def ZONE_NAMES : List String := ZONE_FISH_MAP.map (fun p => p.1)

/-- Model of ZONE_FISH_MAP.get(zone, []). -/
def zoneFish (zone : String) : List FishDef :=
  (ZONE_FISH_MAP.lookup zone).getD []

def RARITY_BASE_REWARD : List (String × Nat) := [
  ("Common", 10),
  ("Uncommon", 20),
  ("Rare", 40),
  ("Epic", 80),
  ("Legendary", 160),
  ("Mythical", 320),
  ("Exotic", 640)]

/-! ## Quests (class Quest and class QuestManager) -/

structure Quest where
  quest_type : Nat
  zone : String
  target_fish : Option String := none
  rarity : Option String := none
  amount : Nat := 1
  progress : Nat := 0
  reward : Nat := 0
deriving DecidableEq, Repr

/-- Model of Quest.is_completed. -/
def Quest.is_completed (q : Quest) : Bool :=
  q.progress ≥ q.amount

/-- The base_values dictionary local to QuestManager.generate_quest. -/
def QUEST_BASE_VALUES : List (String × Nat) := [
  ("Common", 10),
  ("Uncommon", 20),
  ("Rare", 100),
  ("Epic", 175),
  ("Mythical", 200),
  ("Legendary", 500),
  ("Boss", 10000)]

/-- First-occurrence deduplication: one possible enumeration order of the
Python set comprehension over the rarities of a fish list. -/
def dedupAux (seen : List String) : List String → List String
  | [] => []
  | x :: xs => if seen.contains x then dedupAux seen xs else x :: dedupAux (x :: seen) xs

def dedupKeep (l : List String) : List String := dedupAux [] l

def dummyFish : FishDef := { name := "", rarity := "" }

/-- Model of QuestManager.generate_quest.  The three random draws are
explicit parameters: t is true when random.choice([1, 2]) returned 1, a is
the randint(1, 20) amount roll and pick is the index drawn by the
random.choice over the candidate fish (quest type 1) or over the rarity set
(quest type 2). -/
def generate_quest (zone : String) (t : Bool) (a pick : Nat) : Quest :=
  let fish_list := (zoneFish zone).filter
    (fun f => !(f.rarity == "???") && !(f.rarity == "Exotic"))
  if fish_list.isEmpty then
    { quest_type := 1, zone := zone, target_fish := some "Carp", amount := 1, reward := 10 }
  else
    let (rarity, target_fish) :=
      if t then
        let fish := fish_list.getD (pick % fish_list.length) dummyFish
        (fish.rarity, some fish.name)
      else
        let rs := dedupKeep (fish_list.map (fun f => f.rarity))
        (rs.getD (pick % rs.length) "", none)
    let max_amount : Nat :=
      if rarity = "Legendary" then 5 else if rarity = "Boss" then 1 else 15
    let amount := min a max_amount
    let reward := ((QUEST_BASE_VALUES.lookup rarity).getD 0) * amount
    { quest_type := if t then 1 else 2, zone := zone, target_fish := target_fish,
      rarity := some rarity, amount := amount, progress := 0, reward := reward }

/-- Replaces the value stored under an existing key of an association list
(the model of writing to an existing Python dict key). -/
def assocSet {α : Type} (l : List (String × α)) (k : String) (v : α) :
    List (String × α) :=
  l.map (fun p => if p.1 = k then (k, v) else p)

/-- Model of dict.setdefault(k, d): appends (k, d) when the key is absent. -/
def setdefaultD {α : Type} (l : List (String × α)) (k : String) (d : α) :
    List (String × α) :=
  if (l.lookup k).isSome then l else l ++ [(k, d)]

/-- The per-zone quest store of QuestManager (zone_quests), an
insertion-ordered dictionary from zone name to quest list. -/
abbrev ZoneQuests := List (String × List Quest)

/-- Model of the reward back-fill applied by QuestManager.__init__ to each
quest loaded from a save: a quest with reward 0 gets its rarity recovered
from the catalog (quest type 1 with a falsy rarity) and its reward recomputed
from RARITY_BASE_REWARD. -/
def fixupQuest (zone : String) (q : Quest) : Quest :=
  if q.reward = 0 then
    let found : Option String :=
      if q.quest_type = 1 ∧ (q.rarity = none ∨ q.rarity = some "") then
        match q.target_fish with
        | some n => ((zoneFish zone).find? (fun f => f.name == n)).map (fun f => f.rarity)
        | none => none
      else none
    let rarity : Option String := match found with
      | some r => some r
      | none => q.rarity
    let base : Nat := match rarity with
      | some r => (RARITY_BASE_REWARD.lookup r).getD 10
      | none => 10
    { q with rarity := rarity, reward := base * q.amount }
  else q

/-- Model of the while-loop in QuestManager.__init__ that appends freshly
generated quests until a zone holds 10.  The oracle gives, per zone and per
current length, the random draws of the corresponding generate_quest call.
The fuel argument only bounds the iteration count (each iteration grows the
list by one, so 10 iterations always suffice); the loop guard itself is the
length test, as in the source. -/
def fillQuestsAux (zone : String) (orc : String → Nat → Bool × Nat × Nat) :
    Nat → List Quest → List Quest
  | 0, cur => cur
  | fuel + 1, cur =>
      if cur.length < 10 then
        let r := orc zone cur.length
        fillQuestsAux zone orc fuel (cur ++ [generate_quest zone r.1 r.2.1 r.2.2])
      else cur

def fillQuests (zone : String) (orc : String → Nat → Bool × Nat × Nat)
    (cur : List Quest) : List Quest :=
  fillQuestsAux zone orc 10 cur

/-- One zone pass of QuestManager.__init__: setdefault the zone (appending
an empty list when absent), trim to 10 and fill back up to 10. -/
def qmStep (orc : String → Nat → Bool × Nat × Nat) (acc : ZoneQuests)
    (z : String) : ZoneQuests :=
  match acc.lookup z with
  | some cur => assocSet acc z (fillQuests z orc (cur.take 10))
  | none => acc ++ [(z, fillQuests z orc [])]

/-- Model of QuestManager.__init__ applied to the quests loaded from a save:
rewards are back-filled, then every zone of ZONE_FISH_MAP is ensured to hold
exactly 10 quests (excess trimmed, missing slots filled by generate_quest). -/
def qmInit (loaded : ZoneQuests) (orc : String → Nat → Bool × Nat × Nat) :
    ZoneQuests :=
  ZONE_NAMES.foldl (qmStep orc)
    (loaded.map (fun p => (p.1, p.2.map (fixupQuest p.1))))

/-- Model of QuestManager.finish_quest.  The random draws of the
generate_quest call that refills the slot are the explicit parameters t, a
and pick. -/
def finish_quest (zq : ZoneQuests) (zone : String) (idx : Nat)
    (t : Bool) (a pick : Nat) : Nat × ZoneQuests :=
  let quests := (zq.lookup zone).getD []
  if idx < quests.length then
    let q := quests.getD idx { quest_type := 1, zone := zone }
    if q.is_completed then
      (q.reward, assocSet zq zone (quests.set idx (generate_quest zone t a pick)))
    else (0, zq)
  else (0, zq)

/-! ## Clock (Game.get_time_of_day, get_current_season, advance_time) -/

def SEASONS : List String := ["Spring", "Summer", "Autumn", "Winter"]

def get_time_of_day (hour : Nat) : String :=
  if 6 ≤ hour ∧ hour < 18 then "Day"
  else if 18 ≤ hour ∧ hour < 22 then "Sunset"
  else "Night"

def get_current_season (day : Nat) : String :=
  SEASONS.getD ((day / 7) % 4) ""

/-- Model of Game.advance_time.  The roll parameter is the value of
randint(1, 100) that the nightly event draw would consume; the draw is only
consumed when the new hour is at least 20 and the event is still Nothing. -/
def advance_time (hour day : Nat) (event : String) (roll : Nat) :
    Nat × Nat × String :=
  let hour2 := (hour + 1) % 24
  let day2 := if hour2 = 0 ∧ hour = 23 then day + 1 else day
  let event2 :=
    if hour2 < 20 then "Nothing"
    else if event = "Nothing" then
      (if roll ≤ 20 then "Full Moon" else "Nothing")
    else event
  (hour2, day2, event2)

/-! ## Level and experience (Game.calculate_xp_for_level, check_level_up) -/

def calculate_xp_for_level (level : Nat) : Nat :=
  if level = 0 then 100 else 100 + level * 100

/-- Model of the Game.check_level_up while-loop, acting on (level, xp).  The
fuel argument only bounds the iteration count (the level rises by one per
iteration and the loop stops at level 100, so 100 - level iterations always
suffice); the loop guard is the xp/level test, as in the source. -/
def check_level_up_aux : Nat → Nat → Nat → Nat × Nat
  | 0, level, xp => if level ≥ 100 then (level, 0) else (level, xp)
  | fuel + 1, level, xp =>
      if xp ≥ calculate_xp_for_level level ∧ level < 100 then
        if level + 1 ≥ 100 then (100, 0)
        else check_level_up_aux fuel (level + 1) (xp - calculate_xp_for_level level)
      else if level ≥ 100 then (level, 0)
      else (level, xp)

def check_level_up (level xp : Nat) : Nat × Nat :=
  check_level_up_aux (100 - level) level xp

/-! ## Discovery log (Game.update_discovery) -/

structure DiscEntry where
  count : Nat
  maxWeight : ℚ
  maxValue : ℚ
deriving DecidableEq, Repr

abbrev Discovery := List (String × List (String × DiscEntry))

/-- The in-place mutation applied to one discovery entry per recorded catch. -/
def updEntry (e : DiscEntry) (weight value : ℚ) : DiscEntry :=
  { count := e.count + 1,
    maxWeight := if weight > e.maxWeight then weight else e.maxWeight,
    maxValue := if value > e.maxValue then value else e.maxValue }

/-- Model of Game.update_discovery: setdefault the zone map and entry, then
increment the count and raise the maxima. -/
def update_discovery (disc : Discovery) (zone name : String)
    (weight value : ℚ) : Discovery :=
  let disc2 := setdefaultD disc zone []
  let zd := setdefaultD ((disc2.lookup zone).getD []) name ⟨0, 0, 0⟩
  let zd2 := assocSet zd name (updEntry ((zd.lookup name).getD ⟨0, 0, 0⟩) weight value)
  assocSet disc2 zone zd2

/-- Reads the discovery entry recorded for (zone, name); absent entries read
as the setdefault default with count 0 and maxima 0. -/
def discEntry (disc : Discovery) (zone name : String) : DiscEntry :=
  ((((disc.lookup zone).getD []).lookup name)).getD ⟨0, 0, 0⟩

/-! ## Weighted catch resolver (Game.get_fish_by_weighted_random) -/

def DRAW_WEIGHTS : List (String × Nat) := [
  ("Common", 5),
  ("Uncommon", 3),
  ("Rare", 2),
  ("Epic", 1),
  ("Legendary", 1),
  ("Mythical", 1),
  ("Exotic", 0)]

/-- The per-rarity draw weight dictionary lookup with Python default 3. -/
def rarityDrawWeight (r : String) : Nat :=
  (DRAW_WEIGHTS.lookup r).getD 3

/-- Truthiness-faithful gate test: fish.get(key) applies only when the key
is present and the list nonempty, and then requires membership. -/
def gateAllows (gate : Option (List String)) (v : String) : Bool :=
  match gate with
  | none => true
  | some l => l.isEmpty || l.contains v

def eligibleFish (tod season : String) (f : FishDef) : Bool :=
  !(f.rarity == "???") && gateAllows f.time_of_day tod && gateAllows f.seasons season

/-- Model of the normal (non-boss) path of Game.get_fish_by_weighted_random:
filter by boss rarity and the time/season gates, fall back to the unfiltered
list when the filter empties, expand by rarity draw weight and draw by index.
The parameter k is the index drawn by random.choice; the result is none only
when the weight-expanded list is empty (where Python would raise). -/
def weightedDrawNormal (fish_list : List FishDef) (tod season : String)
    (k : Nat) : Option FishDef :=
  let filtered := fish_list.filter (eligibleFish tod season)
  let filtered := if filtered.isEmpty then fish_list else filtered
  let weighted := filtered.flatMap (fun f => List.replicate (rarityDrawWeight f.rarity) f)
  weighted[k % weighted.length]?

/-- Model of Game.get_fish_by_weighted_random.  bossBranch is true when the
random.random() < 0.01 boss roll succeeded for a zone with a boss; that
branch resolves the boss encounter internally and returns None. -/
def get_fish_by_weighted_random (fish_list : List FishDef) (tod season : String)
    (bossBranch : Bool) (k : Nat) : Option FishDef :=
  if bossBranch then none
  else weightedDrawNormal fish_list tod season k

/-! ## Skill check (Game.start_minigame, Game.run_boss_minigame_rounds) -/

inductive MiniOutcome where
  | hit : MiniOutcome
  | escape : MiniOutcome
  | miss : MiniOutcome
  | timedOut : MiniOutcome
deriving DecidableEq, Repr

/-- Length of the sweep bar (26 dashes in both minigames). -/
def barLength : Nat := 26

def inWindow (targetStart targetEnd j : Nat) : Bool :=
  decide (targetStart ≤ j ∧ j ≤ targetEnd)

/-- One confirm position check with the one-tick tolerance: the marker
position i hits, or the immediately prior position hits (prev_i ≥ 0). -/
def confirmInZone (targetStart targetEnd i : Nat) (prev : Option Nat) : Bool :=
  inWindow targetStart targetEnd i ||
    (match prev with
     | some p => inWindow targetStart targetEnd p
     | none => false)

/-- Model of the tick loop of Game.start_minigame.  keys gives the input
event observed at each tick: none when no key is pressed, some b when a key
is pressed with b true exactly when it is an Enter or Space confirm.  escRoll
is the randint(1, 100) fish-strength roll consumed on a confirmed hit. -/
def miniSweepAux (targetStart targetEnd : Nat) (keys : Nat → Option Bool)
    (escRoll : Nat) : Nat → Nat → Option Nat → MiniOutcome
  | 0, _, _ => .timedOut
  | fuel + 1, i, prev =>
      if i < barLength then
        match keys i with
        | some true =>
            if confirmInZone targetStart targetEnd i prev then
              (if escRoll ≤ 20 then .escape else .hit)
            else .miss
        | _ => miniSweepAux targetStart targetEnd keys escRoll fuel (i + 1) (some i)
      else .timedOut

def miniSweep (targetStart targetEnd : Nat) (keys : Nat → Option Bool)
    (escRoll : Nat) (i : Nat) (prev : Option Nat) : MiniOutcome :=
  miniSweepAux targetStart targetEnd keys escRoll (barLength - i) i prev

/-- Game.start_minigame returns True exactly on a hit that survives the
fish-strength roll. -/
def start_minigame (targetStart targetEnd : Nat) (keys : Nat → Option Bool)
    (escRoll : Nat) : Bool :=
  miniSweep targetStart targetEnd keys escRoll 0 none = .hit

/-- Model of the tick loop of one round of Game.run_boss_minigame_rounds: a
confirm inside the window ends the round successfully with no further random
check; a confirm outside the window, or a full sweep without confirm, fails. -/
def bossRoundSweepAux (targetStart targetEnd : Nat) (keys : Nat → Option Bool) :
    Nat → Nat → Option Nat → Bool
  | 0, _, _ => false
  | fuel + 1, i, prev =>
      if i < barLength then
        match keys i with
        | some true => confirmInZone targetStart targetEnd i prev
        | _ => bossRoundSweepAux targetStart targetEnd keys fuel (i + 1) (some i)
      else false

def bossRoundSweep (targetStart targetEnd : Nat) (keys : Nat → Option Bool)
    (i : Nat) (prev : Option Nat) : Bool :=
  bossRoundSweepAux targetStart targetEnd keys (barLength - i) i prev

/-- Model of Game.run_boss_minigame_rounds: the rounds list carries, per
round, the random target start and the tick inputs (default call: 5 rounds,
zone length 3).  The first failed round aborts the sequence with False; the
boss is caught only when every round succeeds. -/
def run_boss_minigame_rounds (zone_len : Nat)
    (rounds : List (Nat × (Nat → Option Bool))) : Bool :=
  rounds.all (fun r => bossRoundSweep r.1 (r.1 + zone_len - 1) r.2 0 none)

/-! ## Inventory and selling (Game.sell_fish, option all) -/

structure CaughtFish where
  name : String
  rarity : String
  price : ℚ
  weight : ℚ
  zone : String
deriving DecidableEq, Repr

/-- Python round with two decimal digits on an exact rational: round-half-
to-even, as Python round implements (float rounding idealized as exact). -/
def pyRound2 (x : ℚ) : ℚ :=
  let y := x * 100
  let n := ⌊y⌋
  let r := y - n
  let m : ℤ :=
    if r < 1/2 then n
    else if r > 1/2 then n + 1
    else if n % 2 = 0 then n else n + 1
  (m : ℚ) / 100

/-- The running sum over the inventory taken by the sell-all branch of
Game.sell_fish. -/
def sellAllTotal (inv : List CaughtFish) : ℚ :=
  inv.foldl (fun acc f => acc + f.weight * f.price) 0

/-- Model of the sell-all branch of Game.sell_fish: the summed value is
rounded once, credited to the balance, and the inventory is emptied. -/
def sell_fish_all (balance : ℚ) (inv : List CaughtFish) : ℚ × List CaughtFish :=
  (balance + pyRound2 (sellAllTotal inv), [])

/-! ## Persistent game state (the fields written by Game.save_game) -/

structure GameState where
  balance : ℚ
  inventory : List CaughtFish
  has_submarine : Bool
  has_boat : Bool
  has_torch : Bool
  has_abyss_trench_access : Bool
  has_ancient_sea_access : Bool
  has_ancient_key : Bool
  has_floating_key : Bool
  current_hour : Nat
  current_day : Nat
  event : String
  level : Nat
  xp : Nat
  discovery : Discovery
  quests : ZoneQuests
deriving DecidableEq, Repr

/-! ### Serialization (Game.save_game) -/

def encFish (f : CaughtFish) : JVal :=
  .jobj [("name", .jstr f.name), ("rarity", .jstr f.rarity), ("price", .jnum f.price),
    ("weight", .jnum f.weight), ("zone", .jstr f.zone)]

def encOptStr : Option String → JVal
  | some s => .jstr s
  | none => .jnull

/-- Model of Quest.to_dict (dataclasses.asdict, field declaration order). -/
def encQuest (q : Quest) : JVal :=
  .jobj [("quest_type", .jnum (q.quest_type : ℚ)), ("zone", .jstr q.zone),
    ("target_fish", encOptStr q.target_fish), ("rarity", encOptStr q.rarity),
    ("amount", .jnum (q.amount : ℚ)), ("progress", .jnum (q.progress : ℚ)),
    ("reward", .jnum (q.reward : ℚ))]

def encEntry (e : DiscEntry) : JVal :=
  .jobj [("count", .jnum (e.count : ℚ)), ("maxWeight", .jnum e.maxWeight),
    ("maxValue", .jnum e.maxValue)]

def encDiscovery (d : Discovery) : JVal :=
  .jobj (d.map (fun p => (p.1, .jobj (p.2.map (fun q => (q.1, encEntry q.2))))))

/-- Model of QuestManager.to_dict. -/
def encQuests (zq : ZoneQuests) : JVal :=
  .jobj (zq.map (fun p => (p.1, .jarr (p.2.map encQuest))))

/-- The data dictionary assembled by Game.save_game, keys in program order,
before the digest is appended. -/
def dataDict (s : GameState) : List (String × JVal) :=
  [("balance", .jnum s.balance),
   ("inventoryFish", .jarr (s.inventory.map encFish)),
   ("hasSubmarine", .jbool s.has_submarine),
   ("hasBoat", .jbool s.has_boat),
   ("hasTorch", .jbool s.has_torch),
   ("hasAbyssTrenchAccess", .jbool s.has_abyss_trench_access),
   ("hasAncientSeaAccess", .jbool s.has_ancient_sea_access),
   ("hasAncientKey", .jbool s.has_ancient_key),
   ("hasFloatingKey", .jbool s.has_floating_key),
   ("currentHour", .jnum (s.current_hour : ℚ)),
   ("currentDay", .jnum (s.current_day : ℚ)),
   ("event", .jstr s.event),
   ("level", .jnum (s.level : ℚ)),
   ("xp", .jnum (s.xp : ℚ)),
   ("discovery", encDiscovery s.discovery),
   ("quests", encQuests s.quests)]

/-- Model of Game.save_game: the stored document is the data dictionary with
the digest of the canonical serialization appended under the key hash.
hashFn is the external SHA-256 hex digest collaborator. -/
def save_game (hashFn : String → String) (s : GameState) : JVal :=
  .jobj (dataDict s ++ [("hash", .jstr (hashFn (dumpsSorted (.jobj (dataDict s)))))])

/-- The byte string json.dump(data, f, indent=2) writes to save_data.json. -/
def save_game_bytes (hashFn : String → String) (s : GameState) : String :=
  dumpsIndent 0 (save_game hashFn s)

/-! ### Deserialization (Game.load_game) -/

/-- Typed readers for dict.get: load_game assigns the stored values with
the given defaults for missing keys; the readers recover exactly the values
save_game writes for each field. -/
def jAsQ (j : Option JVal) (d : ℚ) : ℚ :=
  match j with
  | some (.jnum q) => q
  | _ => d

def jAsNat (j : Option JVal) (d : Nat) : Nat :=
  match j with
  | some (.jnum q) => if q.den = 1 ∧ 0 ≤ q.num then q.num.toNat else d
  | _ => d

def jAsBool (j : Option JVal) (d : Bool) : Bool :=
  match j with
  | some (.jbool b) => b
  | _ => d

def jAsStr (j : Option JVal) (d : String) : String :=
  match j with
  | some (.jstr s) => s
  | _ => d

def jAsOptStr (j : Option JVal) : Option String :=
  match j with
  | some (.jstr s) => some s
  | _ => none

def decFish (j : JVal) : CaughtFish :=
  match j with
  | .jobj kvs =>
      { name := jAsStr (kvs.lookup "name") "",
        rarity := jAsStr (kvs.lookup "rarity") "",
        price := jAsQ (kvs.lookup "price") 0,
        weight := jAsQ (kvs.lookup "weight") 0,
        zone := jAsStr (kvs.lookup "zone") "" }
  | _ => { name := "", rarity := "", price := 0, weight := 0, zone := "" }

/-- Model of Quest(**q): dataclass defaults for the optional fields. -/
def decQuest (j : JVal) : Quest :=
  match j with
  | .jobj kvs =>
      { quest_type := jAsNat (kvs.lookup "quest_type") 0,
        zone := jAsStr (kvs.lookup "zone") "",
        target_fish := jAsOptStr (kvs.lookup "target_fish"),
        rarity := jAsOptStr (kvs.lookup "rarity"),
        amount := jAsNat (kvs.lookup "amount") 1,
        progress := jAsNat (kvs.lookup "progress") 0,
        reward := jAsNat (kvs.lookup "reward") 0 }
  | _ => { quest_type := 0, zone := "" }

def decEntry (j : JVal) : DiscEntry :=
  match j with
  | .jobj kvs =>
      { count := jAsNat (kvs.lookup "count") 0,
        maxWeight := jAsQ (kvs.lookup "maxWeight") 0,
        maxValue := jAsQ (kvs.lookup "maxValue") 0 }
  | _ => ⟨0, 0, 0⟩

def decDiscovery (j : Option JVal) : Discovery :=
  match j with
  | some (.jobj kvs) =>
      kvs.map (fun p => (p.1,
        match p.2 with
        | .jobj l => l.map (fun q => (q.1, decEntry q.2))
        | _ => []))
  | _ => []

def decQuests (j : Option JVal) : ZoneQuests :=
  match j with
  | some (.jobj kvs) =>
      kvs.map (fun p => (p.1,
        match p.2 with
        | .jarr l => l.map decQuest
        | _ => []))
  | _ => []

/-- The state Game.load_game restores from a document with every data key
missing: the Game.__init__ defaults, with the quest pool freshly filled by
QuestManager.__init__. -/
def defaultLoadedState (orc : String → Nat → Bool × Nat × Nat) : GameState :=
  { balance := 100, inventory := [], has_submarine := false, has_boat := false,
    has_torch := false, has_abyss_trench_access := false, has_ancient_sea_access := false,
    has_ancient_key := false, has_floating_key := false, current_hour := 0,
    current_day := 0, event := "Nothing", level := 0, xp := 0, discovery := [],
    quests := qmInit [] orc }

/-- Model of Game.load_game applied to a parsed save document, composed with
the QuestManager construction that follows it in Game.__init__.  The digest
is recomputed over the document with the hash key popped; on mismatch the
program prints a tamper warning and exits, modelled by the error result.
All fields are read with dict.get defaults.  orc supplies the random draws
for any quest slots QuestManager.__init__ has to fill.  savedHashOf models
data.pop of the digest (absent key reads as the empty-string default, and a
non-string digest value can never equal the computed hex string), and
popHash is the dictionary with the digest key removed. -/
def savedHashOf (kvs : List (String × JVal)) : Option String :=
  match kvs.lookup "hash" with
  | some (.jstr s) => some s
  | none => some ""
  | some _ => none

def popHash (kvs : List (String × JVal)) : List (String × JVal) :=
  kvs.filter (fun p => !(p.1 == "hash"))

def load_game (hashFn : String → String) (orc : String → Nat → Bool × Nat × Nat)
    (doc : JVal) : Except String GameState :=
  match doc with
  | .jobj kvs =>
    let saved : Option String := savedHashOf kvs
    let rest := popHash kvs
    let computed := hashFn (dumpsSorted (.jobj rest))
    if saved = some computed then
      .ok
        { balance := jAsQ (rest.lookup "balance") 100,
          inventory :=
            (match rest.lookup "inventoryFish" with
             | some (.jarr l) => l.map decFish
             | _ => []),
          has_submarine := jAsBool (rest.lookup "hasSubmarine") false,
          has_boat := jAsBool (rest.lookup "hasBoat") false,
          has_torch := jAsBool (rest.lookup "hasTorch") false,
          has_abyss_trench_access := jAsBool (rest.lookup "hasAbyssTrenchAccess") false,
          has_ancient_sea_access := jAsBool (rest.lookup "hasAncientSeaAccess") false,
          has_ancient_key := jAsBool (rest.lookup "hasAncientKey") false,
          has_floating_key := jAsBool (rest.lookup "hasFloatingKey") false,
          current_hour := jAsNat (rest.lookup "currentHour") 0,
          current_day := jAsNat (rest.lookup "currentDay") 0,
          event := jAsStr (rest.lookup "event") "Nothing",
          level := jAsNat (rest.lookup "level") 0,
          xp := jAsNat (rest.lookup "xp") 0,
          discovery := decDiscovery (rest.lookup "discovery"),
          quests := qmInit (decQuests (rest.lookup "quests")) orc }
    else .error "tampered"
  | _ => .error "not an object"

/-- Model of the full load pipeline from the save file bytes: json.load of
the file text, then the digest check and field restoration. -/
def load_game_bytes (hashFn : String → String)
    (orc : String → Nat → Bool × Nat × Nat) (s : String) : Except String GameState :=
  match loads s with
  | some j => load_game hashFn orc j
  | none => .error "invalid json"

/-- The normal form QuestManager.__init__ establishes and to_dict preserves:
the zone keys are exactly the six zones in catalog order, every zone holds
exactly 10 quests, and every reward is nonzero.  Every state the program
saves has its quests in this form. -/
def questsWF (zq : ZoneQuests) : Prop :=
  zq.map Prod.fst = ZONE_NAMES ∧ ∀ p ∈ zq, p.2.length = 10 ∧ ∀ q ∈ p.2, q.reward ≠ 0

instance (zq : ZoneQuests) : Decidable (questsWF zq) := by
  unfold questsWF; infer_instance

instance {e a : Type} [DecidableEq e] [DecidableEq a] : DecidableEq (Except e a) :=
  fun x y =>
  match x, y with
  | .ok u, .ok v => if h : u = v then .isTrue (by rw [h]) else .isFalse (by simp [h])
  | .error u, .error v => if h : u = v then .isTrue (by rw [h]) else .isFalse (by simp [h])
  | .ok _, .error _ => .isFalse (by simp)
  | .error _, .ok _ => .isFalse (by simp)

/-! ## Concrete fixtures used by the theorems below -/

/-- A quest in the shape generate_quest produces (nonzero reward). -/
def sampleQuest (z : String) : Quest :=
  { quest_type := 1, zone := z, target_fish := some "Carp", rarity := some "Common",
    amount := 1, progress := 0, reward := 10 }

/-- A concrete saved state in the exact shape the program persists: the
default field values of Game.__init__ together with a quest pool in the
QuestManager normal form (six zones, ten quests each, nonzero rewards). -/
def sampleState : GameState :=
  { balance := 100, inventory := [], has_submarine := false, has_boat := false,
    has_torch := false, has_abyss_trench_access := false, has_ancient_sea_access := false,
    has_ancient_key := false, has_floating_key := false, current_hour := 0,
    current_day := 0, event := "Nothing", level := 0, xp := 0, discovery := [],
    quests := ZONE_NAMES.map (fun z => (z, List.replicate 10 (sampleQuest z))) }

/-- A concrete stand-in for the digest collaborator.  The theorems that use
it do not depend on any property of the digest function. -/
def constHash : String → String := fun _ => "d"

/-- A concrete quest-randomness oracle for QuestManager fills. -/
def sampleOracle : String → Nat → Bool × Nat × Nat := fun _ _ => (true, 1, 0)

/-- A catalog on which the time-of-day filter removes every normal entry:
the single normal fish only bites at night, and the boss entry rides along
with rarity "???" exactly as the injected zone bosses do. -/
def gatedFishList : List FishDef := [
  { name := "Night Carp", rarity := "Common", price := some 1, time_of_day := some ["Night"] },
  { name := "Gated Boss", rarity := "???", price := some 1000 }]

/-- Tick inputs that confirm at marker position 5 (an Enter press at tick 5,
nothing before or after). -/
def confirmAtFive : Nat → Option Bool := fun i => if i = 5 then some true else none

/-- The Carp entry of the Lake catalog, as a named literal for theorem
statements. -/
def carpDef : FishDef :=
  { name := "Carp", rarity := "Common", price := some 1, xp := some 5,
    seasons := some ["Spring", "Summer"] }

/-- A completed quest (progress has reached the required amount). -/
def doneQuest : Quest :=
  { quest_type := 1, zone := "Lake", target_fish := some "Carp", rarity := some "Common",
    amount := 1, progress := 1, reward := 10 }

/-- A one-zone quest store holding a single completed quest. -/
def zqFix : ZoneQuests := [("Lake", [doneQuest])]

/-- Modelled from the spec: the boss variant as the specification describes
it, namely the full skill-check state machine, escape check included, run
once per round, failing the sequence as soon as one round fails to end in a
surviving hit.  This definition follows section 4.3 of the spec and exists
only to be compared against run_boss_minigame_rounds from the source. -/
def spec_boss_rounds (zone_len : Nat) (rounds : List (Nat × (Nat → Option Bool)))
    (escRoll : Nat) : Bool :=
  rounds.all (fun r => miniSweep r.1 (r.1 + zone_len - 1) r.2 escRoll 0 none = .hit)

/-! ## Helper lemmas -/

theorem foldl_add_value (l : List CaughtFish) (a : ℚ) :
    l.foldl (fun acc f => acc + f.weight * f.price) a =
      a + (l.map (fun f => f.weight * f.price)).sum := by
  induction l generalizing a with
  | nil => simp
  | cons x xs ih => simp [List.foldl_cons, ih, add_assoc]

/-! ## C6: experience curve and level-up loop -/

/-- C6: for every level L in [0, 99] the requirement is 100 + L·100 (so
level 0 needs 100); one iteration of check_level_up subtracts the
requirement, increments the level and carries the surplus forward; reaching
the cap zeroes the experience; below the requirement nothing changes; and at
level 100 the experience is clamped to 0, discarding further gains. -/
theorem c6_xp_curve_and_level_cap :
    (∀ L : Nat, L ≤ 99 → calculate_xp_for_level L = 100 + L * 100) ∧
    (∀ level xp : Nat, level < 100 → calculate_xp_for_level level ≤ xp →
      level + 1 < 100 →
      check_level_up level xp =
        check_level_up (level + 1) (xp - calculate_xp_for_level level)) ∧
    (∀ level xp : Nat, level < 100 → calculate_xp_for_level level ≤ xp →
      level + 1 = 100 → check_level_up level xp = (100, 0)) ∧
    (∀ level xp : Nat, level < 100 → xp < calculate_xp_for_level level →
      check_level_up level xp = (level, xp)) ∧
    (∀ xp : Nat, check_level_up 100 xp = (100, 0)) := by
  refine ⟨?_, ?_, ?_, ?_, ?_⟩
  · intro L _
    by_cases h : L = 0 <;> simp [calculate_xp_for_level, h]
  · intro level xp h1 h2 h3
    unfold check_level_up
    have hfe : 100 - level = (100 - (level + 1)) + 1 := by omega
    rw [hfe]
    simp only [check_level_up_aux]
    rw [if_pos ⟨h2, h1⟩, if_neg (by omega)]
  · intro level xp h1 h2 h3
    unfold check_level_up
    have hfe : 100 - level = 0 + 1 := by omega
    rw [hfe]
    simp only [check_level_up_aux]
    rw [if_pos ⟨h2, h1⟩, if_pos (by omega)]
  · intro level xp h1 h2
    unfold check_level_up
    have hfe : 100 - level = (99 - level) + 1 := by omega
    rw [hfe]
    simp only [check_level_up_aux]
    rw [if_neg (by omega), if_neg (by omega)]
  · intro xp
    simp [check_level_up, check_level_up_aux]

theorem c6_witness :
    calculate_xp_for_level 5 = 600 ∧
    check_level_up 0 250 = check_level_up 1 150 ∧
    check_level_up 99 20000 = (100, 0) ∧
    check_level_up 3 100 = (3, 100) ∧
    check_level_up 100 77 = (100, 0) := by
  refine ⟨?_, ?_, ?_, ?_, c6_xp_curve_and_level_cap.2.2.2.2 77⟩
  · have := c6_xp_curve_and_level_cap.1 5 (by decide)
    simpa using this
  · have := c6_xp_curve_and_level_cap.2.1 0 250 (by decide) (by decide) (by decide)
    simpa using this
  · exact c6_xp_curve_and_level_cap.2.2.1 99 20000 (by decide) (by decide) (by decide)
  · exact c6_xp_curve_and_level_cap.2.2.2.1 3 100 (by decide) (by decide)

/-! ## C3: nightly event reset and re-roll -/

/-- C3 counterexample: entering the night band at hour 20 with a failed
20-percent draw leaves the event Nothing, yet the very next advance, still
inside the same night, consumes another draw whose outcome determines the
event — so the event is re-rolled more than once per night, contradicting
the claim that the draw happens exactly once on entering the band. -/
theorem c3_counterexample :
    advance_time 19 0 "Nothing" 21 = (20, 0, "Nothing") ∧
    advance_time 20 0 "Nothing" 10 = (21, 0, "Full Moon") ∧
    advance_time 20 0 "Nothing" 90 = (21, 0, "Nothing") := by
  decide

/-- C3 amended: the advance operation resets the event to Nothing whenever
the new hour is below 20; whenever the new hour is 20 or later and the event
is still Nothing — at the entry hour or at any later night hour — it
performs one 20-percent draw, so the draw recurs each night hour until it
succeeds (up to four times per night); once set, Full Moon persists for the
rest of the night. -/
theorem c3_event_reset_and_reroll :
    (∀ h d roll (e : String), (h + 1) % 24 < 20 →
      (advance_time h d e roll).2.2 = "Nothing") ∧
    (∀ h d roll, 20 ≤ (h + 1) % 24 → roll ≤ 20 →
      (advance_time h d "Nothing" roll).2.2 = "Full Moon") ∧
    (∀ h d roll, 20 ≤ (h + 1) % 24 → 20 < roll →
      (advance_time h d "Nothing" roll).2.2 = "Nothing") ∧
    (∀ h d roll (e : String), 20 ≤ (h + 1) % 24 → e ≠ "Nothing" →
      (advance_time h d e roll).2.2 = e) := by
  refine ⟨?_, ?_, ?_, ?_⟩
  · intro h d roll e hlt
    simp [advance_time, hlt]
  · intro h d roll hge hroll
    simp [advance_time, Nat.not_lt.mpr hge, hroll]
  · intro h d roll hge hroll
    simp [advance_time, Nat.not_lt.mpr hge, Nat.not_le.mpr hroll]
  · intro h d roll e hge he
    simp [advance_time, Nat.not_lt.mpr hge, he]

theorem c3_witness :
    (advance_time 3 0 "Full Moon" 50).2.2 = "Nothing" ∧
    (advance_time 19 5 "Nothing" 20).2.2 = "Full Moon" ∧
    (advance_time 19 5 "Nothing" 21).2.2 = "Nothing" ∧
    (advance_time 21 5 "Full Moon" 99).2.2 = "Full Moon" := by
  refine ⟨?_, ?_, ?_, ?_⟩
  · exact c3_event_reset_and_reroll.1 3 0 50 "Full Moon" (by decide)
  · exact c3_event_reset_and_reroll.2.1 19 5 20 (by decide) (by decide)
  · exact c3_event_reset_and_reroll.2.2.1 19 5 21 (by decide) (by decide)
  · exact c3_event_reset_and_reroll.2.2.2 21 5 99 "Full Moon" (by decide) (by decide)

/-! ## C8: selling everything -/

/-- C8: the sell-all operation empties the inventory and credits the balance
with exactly round(Σ weight·price, 2), the sum taken over the whole
inventory before the single rounding. -/
theorem c8_sell_all_exact :
    ∀ (balance : ℚ) (inv : List CaughtFish),
      sell_fish_all balance inv =
        (balance + pyRound2 ((inv.map (fun f => f.weight * f.price)).sum), []) := by
  intro balance inv
  unfold sell_fish_all sellAllTotal
  rw [foldl_add_value, zero_add]

/-! ## Association list lemmas (dict lookup, setdefault, key write) -/

theorem lookup_append_of_none {α : Type} (l1 l2 : List (String × α)) (k : String)
    (h : l1.lookup k = none) : (l1 ++ l2).lookup k = l2.lookup k := by
  induction l1 with
  | nil => simp
  | cons p t ih =>
      rcases p with ⟨a, b⟩
      by_cases hk : k = a
      · subst hk; simp [List.lookup] at h
      · simp only [List.lookup, List.cons_append] at h ⊢
        rw [beq_false_of_ne hk] at h ⊢
        exact ih h

theorem lookup_setdefaultD {α : Type} (l : List (String × α)) (k : String) (d : α) :
    (setdefaultD l k d).lookup k = some ((l.lookup k).getD d) := by
  unfold setdefaultD
  cases h : l.lookup k with
  | some v => simp [h]
  | none =>
      simp only [h, Option.isSome_none, Bool.false_eq_true, if_false, Option.getD_none]
      rw [lookup_append_of_none l _ k h]
      simp [List.lookup]

theorem lookup_assocSet {α : Type} (l : List (String × α)) (k : String) (v : α) :
    (assocSet l k v).lookup k = (l.lookup k).map (fun _ => v) := by
  induction l with
  | nil => simp [assocSet]
  | cons p t ih =>
      rcases p with ⟨a, b⟩
      simp only [assocSet, List.map_cons] at ih ⊢
      dsimp only
      by_cases hk : a = k
      · subst hk
        rw [if_pos rfl]
        simp [List.lookup]
      · rw [if_neg hk]
        simp only [List.lookup, beq_false_of_ne (Ne.symm hk)]
        exact ih

theorem lookup_assocSet_ne {α : Type} (l : List (String × α)) (k k' : String) (v : α)
    (h : k' ≠ k) : (assocSet l k v).lookup k' = l.lookup k' := by
  induction l with
  | nil => simp [assocSet]
  | cons p t ih =>
      rcases p with ⟨a, b⟩
      simp only [assocSet, List.map_cons] at ih ⊢
      dsimp only
      by_cases hk : a = k
      · subst hk
        rw [if_pos rfl]
        simp only [List.lookup, beq_false_of_ne h]
        exact ih
      · rw [if_neg hk]
        simp only [List.lookup]
        cases hke : k' == a
        · exact ih
        · rfl

/-! ## C7: discovery log monotonicity -/

theorem discEntry_update (d : Discovery) (zone name : String) (w v : ℚ) :
    discEntry (update_discovery d zone name w v) zone name =
      updEntry (discEntry d zone name) w v := by
  unfold update_discovery discEntry
  simp only [lookup_assocSet, lookup_setdefaultD, Option.map_some, Option.map_some',
    Option.getD_some]

/-- C7: each recorded catch for a (zone, name) pair increments that
discovery count by exactly one and never lowers the recorded maxima, and so
over any sequence of recorded catches the count grows by the length of the
sequence while maxWeight and maxValue are monotone non-decreasing. -/
theorem c7_discovery_monotonic :
    ∀ (d : Discovery) (zone name : String) (w v : ℚ) (ups : List (ℚ × ℚ)),
      (discEntry (update_discovery d zone name w v) zone name).count
          = (discEntry d zone name).count + 1 ∧
      (discEntry d zone name).maxWeight ≤
          (discEntry (update_discovery d zone name w v) zone name).maxWeight ∧
      (discEntry d zone name).maxValue ≤
          (discEntry (update_discovery d zone name w v) zone name).maxValue ∧
      (discEntry (ups.foldl (fun acc u => update_discovery acc zone name u.1 u.2) d)
          zone name).count = (discEntry d zone name).count + ups.length ∧
      (discEntry d zone name).maxWeight ≤
          (discEntry (ups.foldl (fun acc u => update_discovery acc zone name u.1 u.2) d)
            zone name).maxWeight ∧
      (discEntry d zone name).maxValue ≤
          (discEntry (ups.foldl (fun acc u => update_discovery acc zone name u.1 u.2) d)
            zone name).maxValue := by
  have hstep : ∀ d zone name w v,
      (discEntry (update_discovery d zone name w v) zone name).count
          = (discEntry d zone name).count + 1 ∧
      (discEntry d zone name).maxWeight ≤
          (discEntry (update_discovery d zone name w v) zone name).maxWeight ∧
      (discEntry d zone name).maxValue ≤
          (discEntry (update_discovery d zone name w v) zone name).maxValue := by
    intro d zone name w v
    rw [discEntry_update]
    refine ⟨rfl, ?_, ?_⟩
    · unfold updEntry
      dsimp only
      split
      · next hgt => exact le_of_lt hgt
      · exact le_refl _
    · unfold updEntry
      dsimp only
      split
      · next hgt => exact le_of_lt hgt
      · exact le_refl _
  intro d zone name w v ups
  refine ⟨(hstep d zone name w v).1, (hstep d zone name w v).2.1,
    (hstep d zone name w v).2.2, ?_⟩
  induction ups generalizing d with
  | nil => simp
  | cons u t ih =>
      obtain ⟨hc, hw, hv⟩ := ih (update_discovery d zone name u.1 u.2)
      refine ⟨?_, ?_, ?_⟩
      · rw [List.foldl_cons, hc, (hstep d zone name u.1 u.2).1]
        simp [Nat.add_assoc, Nat.add_comm 1]
      · exact le_trans (hstep d zone name u.1 u.2).2.1 hw
      · exact le_trans (hstep d zone name u.1 u.2).2.2 hv

/-! ## Catalog and quest-generation lemmas -/

theorem zoneFish_cases (zone : String) :
    zoneFish zone = [] ∨ zoneFish zone = FISH_LAKE ∨ zoneFish zone = FISH_SEA ∨
    zoneFish zone = FISH_BATHYAL ∨ zoneFish zone = FISH_MYSTIC_SPRING ∨
    zoneFish zone = FISH_ABYSS_TRENCH ∨ zoneFish zone = FISH_ANCIENT_SEA := by
  unfold zoneFish ZONE_FISH_MAP
  simp only [List.lookup]
  repeat' split
  all_goals simp

theorem catalogs_no_boss_reward_rarity :
    ∀ L ∈ ([FISH_LAKE, FISH_SEA, FISH_BATHYAL, FISH_MYSTIC_SPRING,
        FISH_ABYSS_TRENCH, FISH_ANCIENT_SEA] : List (List FishDef)),
      ∀ f ∈ L, f.rarity ≠ "Boss" := by
  decide

theorem zoneFish_no_boss (zone : String) (f : FishDef) (h : f ∈ zoneFish zone) :
    f.rarity ≠ "Boss" := by
  rcases zoneFish_cases zone with hz | hz | hz | hz | hz | hz | hz
  · rw [hz] at h; cases h
  all_goals
    rw [hz] at h
    exact catalogs_no_boss_reward_rarity _ (by simp) f h

theorem dedupAux_subset (seen : List String) (l : List String) :
    ∀ x ∈ dedupAux seen l, x ∈ l := by
  induction l generalizing seen with
  | nil => intro x hx; cases hx
  | cons y t ih =>
      intro x hx
      unfold dedupAux at hx
      by_cases hy : seen.contains y
      · rw [if_pos hy] at hx
        exact List.mem_cons_of_mem _ (ih seen x hx)
      · rw [if_neg hy] at hx
        rcases List.mem_cons.mp hx with h1 | h1
        · exact h1 ▸ List.mem_cons_self _ _
        · exact List.mem_cons_of_mem _ (ih (y :: seen) x h1)

theorem dedupKeep_ne_nil (l : List String) (h : l ≠ []) : dedupKeep l ≠ [] := by
  cases l with
  | nil => exact absurd rfl h
  | cons y t =>
      unfold dedupKeep dedupAux
      simp

theorem getD_mem_of_ne_nil {α : Type} (l : List α) (h : l ≠ []) (n : Nat) (d : α) :
    l.getD (n % l.length) d ∈ l := by
  have hlen : 0 < l.length := List.length_pos.mpr h
  have hlt : n % l.length < l.length := Nat.mod_lt _ hlen
  rw [List.getD_eq_getElem l d hlt]
  exact List.getElem_mem hlt

theorem generate_quest_spec (zone : String) (t : Bool) (a pick : Nat) :
    ((generate_quest zone t a pick).rarity = none ∧
     (generate_quest zone t a pick).amount = 1 ∧
     (generate_quest zone t a pick).target_fish = some "Carp") ∨
    (∃ f, f ∈ (zoneFish zone).filter
        (fun g => !(g.rarity == "???") && !(g.rarity == "Exotic")) ∧
      (generate_quest zone t a pick).rarity = some f.rarity ∧
      (generate_quest zone t a pick).amount =
        min a (if f.rarity = "Legendary" then 5
          else if f.rarity = "Boss" then 1 else 15) ∧
      ((generate_quest zone t a pick).target_fish = some f.name ∨
       (generate_quest zone t a pick).target_fish = none)) := by
  unfold generate_quest
  cases hE : ((zoneFish zone).filter
      (fun g => !(g.rarity == "???") && !(g.rarity == "Exotic"))).isEmpty with
  | true => left; simp [hE]
  | false =>
      right
      have hne : (zoneFish zone).filter
          (fun g => !(g.rarity == "???") && !(g.rarity == "Exotic")) ≠ [] := by
        intro hniln
        rw [hniln] at hE
        simp at hE
      cases t with
      | true =>
          refine ⟨((zoneFish zone).filter
              (fun g => !(g.rarity == "???") && !(g.rarity == "Exotic"))).getD
                (pick % ((zoneFish zone).filter
                  (fun g => !(g.rarity == "???") && !(g.rarity == "Exotic"))).length)
                dummyFish, ?_, ?_⟩
          · exact getD_mem_of_ne_nil _ hne pick dummyFish
          · simp [hE]
      | false =>
          have hmapne : ((zoneFish zone).filter
              (fun g => !(g.rarity == "???") && !(g.rarity == "Exotic"))).map
                (fun f => f.rarity) ≠ [] := by
            simpa using hne
          have hrsne := dedupKeep_ne_nil _ hmapne
          set rs := dedupKeep (((zoneFish zone).filter
              (fun g => !(g.rarity == "???") && !(g.rarity == "Exotic"))).map
                (fun f => f.rarity)) with hrs
          have hrmem : rs.getD (pick % rs.length) "" ∈ rs :=
            getD_mem_of_ne_nil _ hrsne pick ""
          have hrmap : rs.getD (pick % rs.length) "" ∈
              ((zoneFish zone).filter
                (fun g => !(g.rarity == "???") && !(g.rarity == "Exotic"))).map
                  (fun f => f.rarity) := by
            rw [hrs] at hrmem
            exact dedupAux_subset [] _ _ hrmem
          obtain ⟨f, hfmem, hfr⟩ := List.mem_map.mp hrmap
          refine ⟨f, hfmem, ?_⟩
          simp only [hE, Bool.false_eq_true, if_false]
          rw [← hrs, ← hfr]
          exact ⟨rfl, rfl, Or.inr trivial⟩

/-! ## C9: quest amount caps -/

/-- C9: every generated quest whose targeted rarity is Legendary has its
required amount clamped to at most 5, and no generated quest can target the
rarity class Boss at all (the injected bosses carry rarity "???", and both
"???" and "Exotic" entries are filtered out of quest generation, so the
Boss branch of the amount cap is unreachable and the Boss part of the claim
holds vacuously). -/
theorem c9_quest_amount_caps :
    ∀ (zone : String) (t : Bool) (a pick : Nat),
      ((generate_quest zone t a pick).rarity = some "Legendary" →
        (generate_quest zone t a pick).amount ≤ 5) ∧
      (generate_quest zone t a pick).rarity ≠ some "Boss" ∧
      (generate_quest zone t a pick).rarity ≠ some "???" := by
  intro zone t a pick
  rcases generate_quest_spec zone t a pick with ⟨hr, _, _⟩ | ⟨f, hf, hr, ha, _⟩
  · rw [hr]
    exact ⟨fun h => Option.noConfusion h, fun h => Option.noConfusion h,
      fun h => Option.noConfusion h⟩
  · obtain ⟨hmem, hpred⟩ := List.mem_filter.mp hf
    have hq : f.rarity ≠ "???" ∧ f.rarity ≠ "Exotic" := by
      constructor <;> intro hc <;> rw [hc] at hpred <;> simp at hpred
    have hboss : f.rarity ≠ "Boss" := zoneFish_no_boss zone f hmem
    refine ⟨?_, ?_, ?_⟩
    · intro h
      rw [hr] at h
      have hleg : f.rarity = "Legendary" := by
        injection h
      rw [ha, hleg]
      simp
    · rw [hr]
      intro hc
      exact hboss (by injection hc)
    · rw [hr]
      intro hc
      exact hq.1 (by injection hc)

theorem c9_witness :
    (generate_quest "Lake" false 20 3).rarity = some "Legendary" ∧
    (generate_quest "Lake" false 20 3).amount ≤ 5 ∧
    (generate_quest "Lake" false 20 3).rarity ≠ some "Boss" := by
  refine ⟨by decide, ?_, (c9_quest_amount_caps "Lake" false 20 3).2.1⟩
  exact (c9_quest_amount_caps "Lake" false 20 3).1 (by decide)

/-! ## C2: boss exclusion from draws and quests -/

theorem weightedDrawNormal_eq (L : List FishDef) (tod season : String) (k : Nat) :
    weightedDrawNormal L tod season k =
      ((if (L.filter (eligibleFish tod season)).isEmpty then L
        else L.filter (eligibleFish tod season)).flatMap
          (fun f => List.replicate (rarityDrawWeight f.rarity) f))[k %
        ((if (L.filter (eligibleFish tod season)).isEmpty then L
          else L.filter (eligibleFish tod season)).flatMap
            (fun f => List.replicate (rarityDrawWeight f.rarity) f)).length]? := rfl

theorem weightedDrawNormal_mem_filtered (L : List FishDef) (tod season : String)
    (k : Nat) (f : FishDef)
    (hne : L.filter (eligibleFish tod season) ≠ [])
    (h : weightedDrawNormal L tod season k = some f) :
    f ∈ L.filter (eligibleFish tod season) := by
  rw [weightedDrawNormal_eq, if_neg (by simp [List.isEmpty_eq_false.mpr hne])] at h
  have hmem := List.getElem?_mem h
  obtain ⟨g, hg, hrep⟩ := List.mem_flatMap.mp hmem
  rwa [List.eq_of_mem_replicate hrep]

theorem drawn_not_boss (L : List FishDef) (tod season : String) (k : Nat)
    (f : FishDef) (hne : L.filter (eligibleFish tod season) ≠ [])
    (h : weightedDrawNormal L tod season k = some f) : f.rarity ≠ "???" := by
  have hf := weightedDrawNormal_mem_filtered L tod season k f hne h
  have hpred := (List.mem_filter.mp hf).2
  unfold eligibleFish at hpred
  intro hc
  rw [hc] at hpred
  simp at hpred

/-- Each real catalog keeps at least one entry under the eligibility filter
for every time of day and season, because each holds a normal entry with no
time or season gate (so the unfiltered-catalog fallback never fires). -/
theorem catalogs_filter_ne_nil (tod season : String) :
    FISH_LAKE.filter (eligibleFish tod season) ≠ [] ∧
    FISH_SEA.filter (eligibleFish tod season) ≠ [] ∧
    FISH_BATHYAL.filter (eligibleFish tod season) ≠ [] ∧
    FISH_MYSTIC_SPRING.filter (eligibleFish tod season) ≠ [] ∧
    FISH_ABYSS_TRENCH.filter (eligibleFish tod season) ≠ [] ∧
    FISH_ANCIENT_SEA.filter (eligibleFish tod season) ≠ [] := by
  refine ⟨?_, ?_, ?_, ?_, ?_, ?_⟩
  · exact List.ne_nil_of_mem (List.mem_filter.mpr ⟨(by decide : ({ name := "Tilapia", rarity := "Common", price := some (mkRat 5 4), xp := some 5 } : FishDef) ∈ FISH_LAKE), rfl⟩)
  · exact List.ne_nil_of_mem (List.mem_filter.mpr ⟨(by decide : ({ name := "Starfish", rarity := "Uncommon", base_price := some (mkRat 5 4), xp := some 7 } : FishDef) ∈ FISH_SEA), rfl⟩)
  · exact List.ne_nil_of_mem (List.mem_filter.mpr ⟨(by decide : ({ name := "Lanternfish", rarity := "Uncommon", base_price := some 15, xp := some 18 } : FishDef) ∈ FISH_BATHYAL), rfl⟩)
  · exact List.ne_nil_of_mem (List.mem_filter.mpr ⟨(by decide : ({ name := "Prism Trout", rarity := "Rare", price := some 15, xp := some 10 } : FishDef) ∈ FISH_MYSTIC_SPRING), rfl⟩)
  · exact List.ne_nil_of_mem (List.mem_filter.mpr ⟨(by decide : ({ name := "Lanternfish", rarity := "Common", price := some 15 } : FishDef) ∈ FISH_ABYSS_TRENCH), rfl⟩)
  · exact List.ne_nil_of_mem (List.mem_filter.mpr ⟨(by decide : ({ name := "Mosasaurus", rarity := "Legendary", price := some 350, xp := some 500 } : FishDef) ∈ FISH_ANCIENT_SEA), rfl⟩)

/-- C2 counterexample: on a catalog whose only normal entry is gated to
Night, the Day-time filter empties the candidate list, the draw falls back
to the unfiltered catalog — which still contains the Boss entry — and the
"???" rarity is not in the weight table, so dict.get gives it the default
draw weight 3 and the normal weighted draw can return the Boss entry. -/
theorem c2_counterexample :
    gatedFishList.filter (eligibleFish "Day" "Spring") = [] ∧
    get_fish_by_weighted_random gatedFishList "Day" "Spring" false 5 =
      some { name := "Gated Boss", rarity := "???", price := some 1000 : FishDef } ∧
    rarityDrawWeight "???" = 3 := by
  decide

/-- C2 amended: on each of the game's six zone catalogs the normal weighted
draw never returns a Boss-rarity ("???") entry, because every real catalog
retains an eligible normal entry under every time/season combination and the
filter excludes "???"; quest generation never targets a "???" or Exotic
rarity, and an exact-creature quest only targets the hardcoded fallback name
Carp or a catalog entry that is neither Boss nor Exotic.  In general,
however, the unfiltered-catalog fallback reinstates Boss entries (with
default draw weight 3), so the draw CAN return a Boss entry on a catalog
whose normal entries are all gated away. -/
theorem c2_boss_exclusions :
    (∀ L ∈ ([FISH_LAKE, FISH_SEA, FISH_BATHYAL, FISH_MYSTIC_SPRING,
        FISH_ABYSS_TRENCH, FISH_ANCIENT_SEA] : List (List FishDef)),
      ∀ (tod season : String) (k : Nat) (f : FishDef),
        get_fish_by_weighted_random L tod season false k = some f →
          f.rarity ≠ "???") ∧
    (∀ (zone : String) (t : Bool) (a pick : Nat),
      (generate_quest zone t a pick).rarity ≠ some "???" ∧
      (generate_quest zone t a pick).rarity ≠ some "Exotic" ∧
      (∀ n, (generate_quest zone t a pick).target_fish = some n →
        n = "Carp" ∨ ∃ f ∈ zoneFish zone, f.name = n ∧
          f.rarity ≠ "???" ∧ f.rarity ≠ "Exotic")) := by
  constructor
  · intro L hL tod season k f h
    have h2 : weightedDrawNormal L tod season k = some f := h
    have hC := catalogs_filter_ne_nil tod season
    simp only [List.mem_cons, List.not_mem_nil, or_false] at hL
    rcases hL with rfl | rfl | rfl | rfl | rfl | rfl
    · exact drawn_not_boss _ _ _ _ _ hC.1 h2
    · exact drawn_not_boss _ _ _ _ _ hC.2.1 h2
    · exact drawn_not_boss _ _ _ _ _ hC.2.2.1 h2
    · exact drawn_not_boss _ _ _ _ _ hC.2.2.2.1 h2
    · exact drawn_not_boss _ _ _ _ _ hC.2.2.2.2.1 h2
    · exact drawn_not_boss _ _ _ _ _ hC.2.2.2.2.2 h2
  · intro zone t a pick
    rcases generate_quest_spec zone t a pick with ⟨hr, _, ht⟩ | ⟨f, hf, hr, _, ht⟩
    · rw [hr, ht]
      refine ⟨fun h => Option.noConfusion h, fun h => Option.noConfusion h, ?_⟩
      intro n hn
      left
      injection hn with hn
      exact hn.symm
    · obtain ⟨hmem, hpred⟩ := List.mem_filter.mp hf
      have hq : f.rarity ≠ "???" ∧ f.rarity ≠ "Exotic" := by
        constructor <;> intro hc <;> rw [hc] at hpred <;> simp at hpred
      refine ⟨?_, ?_, ?_⟩
      · rw [hr]; intro hc; exact hq.1 (by injection hc)
      · rw [hr]; intro hc; exact hq.2 (by injection hc)
      · intro n hn
        rcases ht with ht | ht
        · right
          rw [ht] at hn
          injection hn with hn
          exact ⟨f, hmem, hn, hq⟩
        · rw [ht] at hn
          cases hn

theorem c2_witness :
    carpDef.rarity ≠ "???" ∧
    (generate_quest "Sea" true 1 0).rarity ≠ some "???" ∧
    ((generate_quest "Sea" true 1 0).target_fish = some "Starfish" →
      "Starfish" = "Carp" ∨ ∃ f ∈ zoneFish "Sea", f.name = "Starfish" ∧
        f.rarity ≠ "???" ∧ f.rarity ≠ "Exotic") := by
  refine ⟨?_, (c2_boss_exclusions.2 "Sea" true 1 0).1,
    fun h => (c2_boss_exclusions.2 "Sea" true 1 0).2.2 "Starfish" h⟩
  exact c2_boss_exclusions.1 FISH_LAKE (by simp) "Day" "Spring" 0 carpDef (by decide)

/-! ## C4: skill check escape and boss rounds -/

theorem bossAux_iff_miniAux (ts te : Nat) (keys : Nat → Option Bool) (roll : Nat) :
    ∀ (fuel i : Nat) (prev : Option Nat),
      bossRoundSweepAux ts te keys fuel i prev = true ↔
        (miniSweepAux ts te keys roll fuel i prev = .hit ∨
         miniSweepAux ts te keys roll fuel i prev = .escape) := by
  intro fuel
  induction fuel with
  | zero =>
      intro i prev
      simp [bossRoundSweepAux, miniSweepAux]
  | succ n ih =>
      intro i prev
      simp only [bossRoundSweepAux, miniSweepAux]
      by_cases hi : i < barLength
      · rw [if_pos hi, if_pos hi]
        cases hk : keys i with
        | none => exact ih (i + 1) (some i)
        | some b =>
            cases b with
            | false => exact ih (i + 1) (some i)
            | true =>
                by_cases hz : confirmInZone ts te i prev = true
                · rw [hz]
                  by_cases hr : roll ≤ 20 <;> simp [hr]
                · simp only [Bool.not_eq_true] at hz
                  rw [hz]
                  simp
      · rw [if_neg hi, if_neg hi]
        simp

theorem miniAux_no_hit_of_low_roll (ts te : Nat) (keys : Nat → Option Bool)
    (roll : Nat) (hroll : roll ≤ 20) :
    ∀ (fuel i : Nat) (prev : Option Nat),
      miniSweepAux ts te keys roll fuel i prev ≠ .hit := by
  intro fuel
  induction fuel with
  | zero =>
      intro i prev
      simp [miniSweepAux]
  | succ n ih =>
      intro i prev
      simp only [miniSweepAux]
      by_cases hi : i < barLength
      · rw [if_pos hi]
        cases hk : keys i with
        | none => exact ih (i + 1) (some i)
        | some b =>
            cases b with
            | false => exact ih (i + 1) (some i)
            | true =>
                by_cases hz : confirmInZone ts te i prev = true
                · rw [hz]
                  simp [hroll]
                · simp only [Bool.not_eq_true] at hz
                  rw [hz]
                  simp
      · rw [if_neg hi]
        simp

theorem miniAux_escape_roll (ts te : Nat) (keys : Nat → Option Bool) (roll : Nat) :
    ∀ (fuel i : Nat) (prev : Option Nat),
      miniSweepAux ts te keys roll fuel i prev = .escape → roll ≤ 20 := by
  intro fuel
  induction fuel with
  | zero =>
      intro i prev
      simp [miniSweepAux]
  | succ n ih =>
      intro i prev
      simp only [miniSweepAux]
      by_cases hi : i < barLength
      · rw [if_pos hi]
        cases hk : keys i with
        | none => exact ih (i + 1) (some i)
        | some b =>
            cases b with
            | false => exact ih (i + 1) (some i)
            | true =>
                by_cases hz : confirmInZone ts te i prev = true
                · rw [hz]
                  by_cases hr : roll ≤ 20
                  · intro _; exact hr
                  · simp [hr]
                · simp only [Bool.not_eq_true] at hz
                  rw [hz]
                  simp
      · rw [if_neg hi]
        simp

/-- C4 counterexample: with identical round data (target window starting at
5, an Enter press at tick 5) and a fish-strength roll of 10 (inside the 20
percent escape band), every boss round succeeds and the whole boss sequence
returns a catch, while the actual skill-check state machine on the same
inputs ends in escape and start_minigame fails — so the boss variant does
not run the escape check the claim says it includes.  spec_boss_rounds is
the specification text modelled literally, for comparison. -/
theorem c4_counterexample :
    run_boss_minigame_rounds 3 (List.replicate 5 (5, confirmAtFive)) = true ∧
    spec_boss_rounds 3 (List.replicate 5 (5, confirmAtFive)) 10 = false ∧
    miniSweep 5 7 confirmAtFive 10 0 none = .escape ∧
    start_minigame 5 7 confirmAtFive 10 = false := by
  decide

/-- C4 amended: in the skill-check state machine a confirm inside the target
window with a fish-strength roll in the 20 percent band always ends in
escape (never a successful catch); the boss variant runs the same sweep for
its rounds but WITHOUT the escape check — a round succeeds exactly when the
timing machine would end in hit or escape — and the sequence succeeds only
when every round does, any single-round failure aborting it. -/
theorem c4_escape_check_and_boss_rounds :
    (∀ (ts te : Nat) (keys : Nat → Option Bool) (roll : Nat), roll ≤ 20 →
      start_minigame ts te keys roll = false) ∧
    (∀ (ts te : Nat) (keys : Nat → Option Bool) (roll : Nat),
      miniSweep ts te keys roll 0 none = .escape ↔
        (bossRoundSweep ts te keys 0 none = true ∧ roll ≤ 20)) ∧
    (∀ (ts te : Nat) (keys : Nat → Option Bool) (roll : Nat),
      bossRoundSweep ts te keys 0 none = true ↔
        (miniSweep ts te keys roll 0 none = .hit ∨
         miniSweep ts te keys roll 0 none = .escape)) ∧
    (∀ (zl : Nat) (rounds : List (Nat × (Nat → Option Bool))),
      run_boss_minigame_rounds zl rounds = true ↔
        ∀ r ∈ rounds, bossRoundSweep r.1 (r.1 + zl - 1) r.2 0 none = true) := by
  refine ⟨?_, ?_, ?_, ?_⟩
  · intro ts te keys roll hroll
    unfold start_minigame miniSweep
    rw [decide_eq_false_iff_not]
    exact miniAux_no_hit_of_low_roll ts te keys roll hroll _ 0 none
  · intro ts te keys roll
    unfold miniSweep bossRoundSweep
    constructor
    · intro h
      have hroll := miniAux_escape_roll ts te keys roll _ 0 none h
      refine ⟨?_, hroll⟩
      exact (bossAux_iff_miniAux ts te keys roll _ 0 none).mpr (Or.inr h)
    · rintro ⟨hb, hroll⟩
      rcases (bossAux_iff_miniAux ts te keys roll _ 0 none).mp hb with h | h
      · exact absurd h (miniAux_no_hit_of_low_roll ts te keys roll hroll _ 0 none)
      · exact h
  · intro ts te keys roll
    unfold miniSweep bossRoundSweep
    exact bossAux_iff_miniAux ts te keys roll _ 0 none
  · intro zl rounds
    unfold run_boss_minigame_rounds
    exact List.all_eq_true

theorem c4_witness :
    start_minigame 4 6 confirmAtFive 15 = false ∧
    (miniSweep 4 6 confirmAtFive 15 0 none = .escape ↔
      (bossRoundSweep 4 6 confirmAtFive 0 none = true ∧ 15 ≤ 20)) ∧
    (bossRoundSweep 4 6 confirmAtFive 0 none = true ↔
      (miniSweep 4 6 confirmAtFive 15 0 none = .hit ∨
       miniSweep 4 6 confirmAtFive 15 0 none = .escape)) ∧
    (run_boss_minigame_rounds 3 [(4, confirmAtFive)] = true ↔
      ∀ r ∈ ([(4, confirmAtFive)] : List (Nat × (Nat → Option Bool))),
        bossRoundSweep r.1 (r.1 + 3 - 1) r.2 0 none = true) := by
  refine ⟨c4_escape_check_and_boss_rounds.1 4 6 confirmAtFive 15 (by decide),
    c4_escape_check_and_boss_rounds.2.1 4 6 confirmAtFive 15,
    c4_escape_check_and_boss_rounds.2.2.1 4 6 confirmAtFive 15,
    c4_escape_check_and_boss_rounds.2.2.2 3 [(4, confirmAtFive)]⟩

/-! ## C10: finish_quest and the quest pool size -/

theorem lookup_append_single_ne {α : Type} (l : List (String × α)) (z z1 : String)
    (x : α) (h : z ≠ z1) : (l ++ [(z1, x)]).lookup z = l.lookup z := by
  induction l with
  | nil => simp [List.lookup, beq_false_of_ne h]
  | cons p t ih =>
      rcases p with ⟨a, b⟩
      simp only [List.cons_append, List.lookup]
      cases z == a
      · exact ih
      · rfl

theorem fillQuestsAux_length (zone : String) (orc : String → Nat → Bool × Nat × Nat) :
    ∀ (fuel : Nat) (cur : List Quest), cur.length ≤ 10 → 10 ≤ cur.length + fuel →
      (fillQuestsAux zone orc fuel cur).length = 10 := by
  intro fuel
  induction fuel with
  | zero =>
      intro cur h1 h2
      unfold fillQuestsAux
      omega
  | succ n ih =>
      intro cur h1 h2
      unfold fillQuestsAux
      by_cases hlt : cur.length < 10
      · rw [if_pos hlt]
        refine ih _ ?_ ?_ <;> simp <;> omega
      · rw [if_neg hlt]
        omega

theorem fillQuests_length (zone : String) (orc : String → Nat → Bool × Nat × Nat)
    (cur : List Quest) (h : cur.length ≤ 10) :
    (fillQuests zone orc cur).length = 10 :=
  fillQuestsAux_length zone orc 10 cur h (by omega)

theorem qmStep_lookup_self (orc : String → Nat → Bool × Nat × Nat)
    (acc : ZoneQuests) (z : String) :
    ∃ l, (qmStep orc acc z).lookup z = some l ∧ l.length = 10 := by
  unfold qmStep
  cases h : acc.lookup z with
  | some cur =>
      refine ⟨fillQuests z orc (cur.take 10), ?_, ?_⟩
      · rw [lookup_assocSet, h]
        rfl
      · exact fillQuests_length z orc _ (by simp)
  | none =>
      refine ⟨fillQuests z orc [], ?_, ?_⟩
      · rw [lookup_append_of_none _ _ _ h]
        simp [List.lookup]
      · exact fillQuests_length z orc [] (by simp)

theorem qmStep_lookup_ne (orc : String → Nat → Bool × Nat × Nat)
    (acc : ZoneQuests) (z z1 : String) (h : z ≠ z1) :
    (qmStep orc acc z1).lookup z = acc.lookup z := by
  unfold qmStep
  cases h1 : acc.lookup z1 with
  | some cur => exact lookup_assocSet_ne _ _ _ _ h
  | none => exact lookup_append_single_ne _ _ _ _ h

theorem foldl_qmStep_not_mem (orc : String → Nat → Bool × Nat × Nat)
    (zs : List String) (z : String) (hz : z ∉ zs) :
    ∀ acc, (zs.foldl (qmStep orc) acc).lookup z = acc.lookup z := by
  induction zs with
  | nil => intro acc; rfl
  | cons z0 rest ih =>
      intro acc
      rw [List.foldl_cons, ih (fun hm => hz (List.mem_cons_of_mem _ hm)),
        qmStep_lookup_ne orc acc z z0 (fun he => hz (he ▸ List.mem_cons_self _ _))]

theorem foldl_qmStep_mem (orc : String → Nat → Bool × Nat × Nat)
    (zs : List String) (z : String) (hz : z ∈ zs) :
    ∀ acc, ∃ l, (zs.foldl (qmStep orc) acc).lookup z = some l ∧ l.length = 10 := by
  induction zs with
  | nil => cases hz
  | cons z0 rest ih =>
      intro acc
      by_cases hzr : z ∈ rest
      · exact ih hzr _
      · have hz0 : z = z0 := by
          rcases List.mem_cons.mp hz with h | h
          · exact h
          · exact absurd h hzr
        subst hz0
        rw [List.foldl_cons, foldl_qmStep_not_mem orc rest z hzr]
        exact qmStep_lookup_self orc acc z

/-- C10: finish_quest with an out-of-range index, or on an uncompleted
quest, pays nothing and leaves the store untouched; on a completed quest it
pays exactly that quest's reward and replaces exactly that slot with a
freshly generated quest; the per-zone pool length is invariant under
finish_quest and is exactly 10 for each of the six zones after QuestManager
construction. -/
theorem c10_finish_quest_and_pool :
    (∀ (zq : ZoneQuests) (zone : String) (idx : Nat) (t : Bool) (a pick : Nat),
      ((zq.lookup zone).getD []).length ≤ idx →
      finish_quest zq zone idx t a pick = (0, zq)) ∧
    (∀ (zq : ZoneQuests) (zone : String) (idx : Nat) (t : Bool) (a pick : Nat),
      idx < ((zq.lookup zone).getD []).length →
      (((zq.lookup zone).getD []).getD idx { quest_type := 1, zone := zone }).progress <
        (((zq.lookup zone).getD []).getD idx { quest_type := 1, zone := zone }).amount →
      finish_quest zq zone idx t a pick = (0, zq)) ∧
    (∀ (zq : ZoneQuests) (zone : String) (idx : Nat) (t : Bool) (a pick : Nat),
      idx < ((zq.lookup zone).getD []).length →
      (((zq.lookup zone).getD []).getD idx { quest_type := 1, zone := zone }).amount ≤
        (((zq.lookup zone).getD []).getD idx { quest_type := 1, zone := zone }).progress →
      finish_quest zq zone idx t a pick =
        ((((zq.lookup zone).getD []).getD idx { quest_type := 1, zone := zone }).reward,
          assocSet zq zone
            (((zq.lookup zone).getD []).set idx (generate_quest zone t a pick)))) ∧
    (∀ (zq : ZoneQuests) (zone : String) (idx : Nat) (t : Bool) (a pick : Nat)
      (z' : String),
      (((finish_quest zq zone idx t a pick).2.lookup z').getD []).length =
        ((zq.lookup z').getD []).length) ∧
    (∀ (loaded : ZoneQuests) (orc : String → Nat → Bool × Nat × Nat) (z : String),
      z ∈ ZONE_NAMES →
      ∃ l, (qmInit loaded orc).lookup z = some l ∧ l.length = 10) := by
  have hmain : ∀ (zq : ZoneQuests) (zone : String) (idx : Nat) (t : Bool) (a pick : Nat),
      idx < ((zq.lookup zone).getD []).length →
      (((zq.lookup zone).getD []).getD idx { quest_type := 1, zone := zone }).amount ≤
        (((zq.lookup zone).getD []).getD idx { quest_type := 1, zone := zone }).progress →
      finish_quest zq zone idx t a pick =
        ((((zq.lookup zone).getD []).getD idx { quest_type := 1, zone := zone }).reward,
          assocSet zq zone
            (((zq.lookup zone).getD []).set idx (generate_quest zone t a pick))) := by
    intro zq zone idx t a pick hidx hdone
    unfold finish_quest
    rw [if_pos hidx]
    have hcomp : (((zq.lookup zone).getD []).getD idx
        { quest_type := 1, zone := zone }).is_completed = true := by
      unfold Quest.is_completed
      exact decide_eq_true hdone
    dsimp only
    rw [hcomp]
    simp
  refine ⟨?_, ?_, hmain, ?_, ?_⟩
  · intro zq zone idx t a pick h
    unfold finish_quest
    rw [if_neg (by omega)]
  · intro zq zone idx t a pick hidx hprog
    unfold finish_quest
    rw [if_pos hidx]
    have hcomp : (((zq.lookup zone).getD []).getD idx
        { quest_type := 1, zone := zone }).is_completed = false := by
      unfold Quest.is_completed
      exact decide_eq_false (Nat.not_le.mpr hprog)
    dsimp only
    rw [hcomp]
    simp
  · intro zq zone idx t a pick z'
    by_cases hidx : idx < ((zq.lookup zone).getD []).length
    · by_cases hdone : (((zq.lookup zone).getD []).getD idx
          { quest_type := 1, zone := zone }).amount ≤
          (((zq.lookup zone).getD []).getD idx { quest_type := 1, zone := zone }).progress
      · rw [hmain zq zone idx t a pick hidx hdone]
        by_cases hz' : z' = zone
        · subst hz'
          cases hlk : zq.lookup z' with
          | none =>
              rw [hlk] at hidx
              simp at hidx
          | some q0 =>
              rw [lookup_assocSet, hlk]
              simp [List.length_set]
        · rw [lookup_assocSet_ne _ _ _ _ hz']
      · have := (by
          unfold finish_quest
          rw [if_pos hidx]
          have hcomp : (((zq.lookup zone).getD []).getD idx
              { quest_type := 1, zone := zone }).is_completed = false := by
            unfold Quest.is_completed
            exact decide_eq_false (Nat.not_le.mpr (Nat.lt_of_not_le hdone))
          dsimp only
          rw [hcomp]
          simp : finish_quest zq zone idx t a pick = (0, zq))
        rw [this]
    · have : finish_quest zq zone idx t a pick = (0, zq) := by
        unfold finish_quest
        rw [if_neg hidx]
      rw [this]
  · intro loaded orc z hz
    unfold qmInit
    exact foldl_qmStep_mem orc ZONE_NAMES z hz _

theorem c10_witness :
    finish_quest zqFix "Lake" 5 true 1 0 = (0, zqFix) ∧
    finish_quest [("Lake", [sampleQuest "Lake"])] "Lake" 0 true 1 0 =
      (0, [("Lake", [sampleQuest "Lake"])]) ∧
    finish_quest zqFix "Lake" 0 true 1 0 =
      (doneQuest.reward, assocSet zqFix "Lake" ([doneQuest].set 0 (generate_quest "Lake" true 1 0))) ∧
    (((finish_quest zqFix "Lake" 0 true 1 0).2.lookup "Lake").getD []).length =
      ((zqFix.lookup "Lake").getD []).length ∧
    ∃ l, (qmInit [] sampleOracle).lookup "Lake" = some l ∧ l.length = 10 := by
  refine ⟨c10_finish_quest_and_pool.1 zqFix "Lake" 5 true 1 0 (by decide),
    c10_finish_quest_and_pool.2.1 [("Lake", [sampleQuest "Lake"])] "Lake" 0 true 1 0
      (by decide) (by decide), ?_,
    c10_finish_quest_and_pool.2.2.2.1 zqFix "Lake" 0 true 1 0 "Lake",
    c10_finish_quest_and_pool.2.2.2.2 [] sampleOracle "Lake" (by decide)⟩
  have h := c10_finish_quest_and_pool.2.2.1 zqFix "Lake" 0 true 1 0 (by decide) (by decide)
  rw [h]
  rfl

/-! ## C5: persistence round trip -/

theorem jAsNat_natCast (n d : Nat) : jAsNat (some (.jnum (n : ℚ))) d = n := by
  show (if ((n : ℚ)).den = 1 ∧ 0 ≤ ((n : ℚ)).num then ((n : ℚ)).num.toNat else d) = n
  rw [if_pos ⟨Rat.den_natCast n, by positivity⟩]
  simp

theorem decFish_encFish (f : CaughtFish) : decFish (encFish f) = f := rfl

theorem map_decFish_encFish (l : List CaughtFish) :
    (l.map encFish).map decFish = l := by
  induction l with
  | nil => rfl
  | cons f t ih => simp [ih, decFish_encFish]

theorem decQuest_encQuest (q : Quest) : decQuest (encQuest q) = q := by
  cases q with
  | mk qt z tf r am pr re =>
      cases tf <;> cases r <;>
        simp [decQuest, encQuest, encOptStr, jAsOptStr, jAsStr, jAsNat, List.lookup]

theorem decEntry_encEntry (e : DiscEntry) : decEntry (encEntry e) = e := by
  cases e with
  | mk c mw mv => simp [decEntry, encEntry, jAsQ, jAsNat, List.lookup]

theorem zoneDisc_roundtrip (zl : List (String × DiscEntry)) :
    (zl.map (fun q => (q.1, encEntry q.2))).map (fun q => (q.1, decEntry q.2)) = zl := by
  induction zl with
  | nil => rfl
  | cons p t ih => simp [ih, decEntry_encEntry]

theorem decDiscovery_encDiscovery (d : Discovery) :
    decDiscovery (some (encDiscovery d)) = d := by
  unfold decDiscovery encDiscovery
  induction d with
  | nil => rfl
  | cons p t ih =>
      simp only [List.map_cons, List.cons.injEq]
      refine ⟨?_, by simpa using ih⟩
      dsimp only
      rw [zoneDisc_roundtrip]

theorem zoneQuests_roundtrip (ql : List Quest) :
    (ql.map encQuest).map decQuest = ql := by
  induction ql with
  | nil => rfl
  | cons q t ih => simp [ih, decQuest_encQuest]

theorem decQuests_encQuests (zq : ZoneQuests) :
    decQuests (some (encQuests zq)) = zq := by
  unfold decQuests encQuests
  induction zq with
  | nil => rfl
  | cons p t ih =>
      simp only [List.map_cons, List.cons.injEq]
      refine ⟨?_, by simpa using ih⟩
      dsimp only
      rw [zoneQuests_roundtrip]

theorem map_id_of_mem {α : Type} (l : List α) (f : α → α) (h : ∀ a ∈ l, f a = a) :
    l.map f = l := by
  induction l with
  | nil => rfl
  | cons a t ih =>
      simp only [List.map_cons, List.cons.injEq]
      exact ⟨h a (List.mem_cons_self _ _), ih (fun b hb => h b (List.mem_cons_of_mem _ hb))⟩

theorem fixupQuest_id (zone : String) (q : Quest) (h : q.reward ≠ 0) :
    fixupQuest zone q = q := by
  unfold fixupQuest
  rw [if_neg h]

theorem mem_of_lookup {α : Type} (l : List (String × α)) (k : String) (v : α)
    (h : l.lookup k = some v) : (k, v) ∈ l := by
  induction l with
  | nil => cases h
  | cons p t ih =>
      rcases p with ⟨a, b⟩
      simp only [List.lookup] at h
      cases hke : k == a
      · rw [hke] at h
        exact List.mem_cons_of_mem _ (ih h)
      · rw [hke] at h
        have hk : k = a := eq_of_beq hke
        injection h with hv
        subst hk hv
        exact List.mem_cons_self _ _

theorem lookup_isSome_of_mem_keys {α : Type} (l : List (String × α)) (k : String)
    (h : k ∈ l.map Prod.fst) : ∃ v, l.lookup k = some v := by
  induction l with
  | nil => cases h
  | cons p t ih =>
      rcases p with ⟨a, b⟩
      simp only [List.map_cons, List.mem_cons] at h
      simp only [List.lookup]
      cases hke : k == a
      · rcases h with h1 | h1
        · rw [h1] at hke
          simp at hke
        · exact ih h1
      · exact ⟨b, rfl⟩

theorem assocSet_of_not_mem {α : Type} (l : List (String × α)) (k : String) (v : α)
    (h : k ∉ l.map Prod.fst) : assocSet l k v = l := by
  induction l with
  | nil => rfl
  | cons p t ih =>
      rcases p with ⟨a, b⟩
      simp only [List.map_cons, List.mem_cons] at h
      push_neg at h
      simp only [assocSet, List.map_cons]
      rw [if_neg (fun he => h.1 he.symm)]
      have := ih (fun hm => h.2 hm)
      simp only [assocSet] at this
      rw [this]

theorem assocSet_self {α : Type} (l : List (String × α)) (k : String) (v : α)
    (hnd : (l.map Prod.fst).Nodup) (h : l.lookup k = some v) : assocSet l k v = l := by
  induction l with
  | nil => rfl
  | cons p t ih =>
      rcases p with ⟨a, b⟩
      simp only [List.map_cons, List.nodup_cons] at hnd
      simp only [List.lookup] at h
      simp only [assocSet, List.map_cons]
      by_cases hk : a = k
      · subst hk
        rw [beq_self_eq_true] at h
        injection h with hv
        subst hv
        rw [if_pos rfl]
        have := assocSet_of_not_mem t a b hnd.1
        simp only [assocSet] at this
        rw [this]
      · rw [if_neg hk]
        rw [beq_false_of_ne (fun he => hk he.symm)] at h
        have := ih hnd.2 h
        simp only [assocSet] at this
        rw [this]

theorem fillQuestsAux_id (zone : String) (orc : String → Nat → Bool × Nat × Nat)
    (l : List Quest) (hlen : l.length = 10) :
    ∀ fuel, fillQuestsAux zone orc fuel l = l := by
  intro fuel
  cases fuel with
  | zero => rfl
  | succ n =>
      unfold fillQuestsAux
      rw [if_neg (by omega)]

theorem fillQuests_id (zone : String) (orc : String → Nat → Bool × Nat × Nat)
    (l : List Quest) (hlen : l.length = 10) : fillQuests zone orc l = l :=
  fillQuestsAux_id zone orc l hlen 10

theorem qmStep_id (orc : String → Nat → Bool × Nat × Nat) (acc : ZoneQuests)
    (z : String) (hnd : (acc.map Prod.fst).Nodup) (l : List Quest)
    (h : acc.lookup z = some l) (hlen : l.length = 10) : qmStep orc acc z = acc := by
  unfold qmStep
  rw [h]
  dsimp only
  rw [List.take_of_length_le (by omega), fillQuests_id z orc l hlen]
  exact assocSet_self acc z l hnd h

theorem foldl_fixed {α β : Type} (f : α → β → α) (a : α) (l : List β)
    (h : ∀ b ∈ l, f a b = a) : l.foldl f a = a := by
  induction l with
  | nil => rfl
  | cons b t ih =>
      rw [List.foldl_cons, h b (List.mem_cons_self _ _)]
      exact ih (fun c hc => h c (List.mem_cons_of_mem _ hc))

theorem qmInit_id (zq : ZoneQuests) (orc : String → Nat → Bool × Nat × Nat)
    (hwf : questsWF zq) : qmInit zq orc = zq := by
  obtain ⟨hkeys, hvals⟩ := hwf
  have hnd : (zq.map Prod.fst).Nodup := by
    rw [hkeys]
    decide
  unfold qmInit
  rw [map_id_of_mem zq _ (fun p hp => by
    rw [map_id_of_mem p.2 _ (fun q hq => fixupQuest_id p.1 q ((hvals p hp).2 q hq))])]
  apply foldl_fixed
  intro z hz
  rw [← hkeys] at hz
  obtain ⟨v, hv⟩ := lookup_isSome_of_mem_keys zq z hz
  exact qmStep_id orc zq z hnd v hv ((hvals _ (mem_of_lookup _ _ _ hv)).1)

theorem load_save_roundtrip (hashFn : String → String)
    (orc : String → Nat → Bool × Nat × Nat) (s : GameState)
    (hwf : questsWF s.quests) :
    load_game hashFn orc (save_game hashFn s) = .ok s := by
  have hq : qmInit s.quests orc = s.quests := qmInit_id s.quests orc hwf
  show load_game hashFn orc (.jobj (dataDict s ++
    [("hash", .jstr (hashFn (dumpsSorted (.jobj (dataDict s)))))])) = .ok s
  unfold load_game
  dsimp only
  rw [show savedHashOf (dataDict s ++
      [("hash", .jstr (hashFn (dumpsSorted (.jobj (dataDict s)))))]) =
      some (hashFn (dumpsSorted (.jobj (dataDict s)))) from rfl,
    show popHash (dataDict s ++
      [("hash", .jstr (hashFn (dumpsSorted (.jobj (dataDict s)))))]) = dataDict s from rfl]
  rw [if_pos rfl]
  refine congrArg Except.ok ?_
  simp only [
    show (dataDict s).lookup "inventoryFish" = some (.jarr (s.inventory.map encFish)) from rfl,
    show (dataDict s).lookup "currentHour" = some (.jnum (s.current_hour : ℚ)) from rfl,
    show (dataDict s).lookup "currentDay" = some (.jnum (s.current_day : ℚ)) from rfl,
    show (dataDict s).lookup "level" = some (.jnum (s.level : ℚ)) from rfl,
    show (dataDict s).lookup "xp" = some (.jnum (s.xp : ℚ)) from rfl,
    show (dataDict s).lookup "discovery" = some (encDiscovery s.discovery) from rfl,
    show (dataDict s).lookup "quests" = some (encQuests s.quests) from rfl]
  simp only [jAsNat_natCast, map_decFish_encFish, decDiscovery_encDiscovery,
    decQuests_encQuests, hq]
  rfl

theorem load_empty_defaults (hashFn : String → String)
    (orc : String → Nat → Bool × Nat × Nat) :
    load_game hashFn orc (.jobj [("hash", .jstr (hashFn (dumpsSorted (.jobj []))))]) =
      .ok (defaultLoadedState orc) := by
  unfold load_game
  dsimp only
  rw [show savedHashOf [("hash", .jstr (hashFn (dumpsSorted (.jobj []))))] =
      some (hashFn (dumpsSorted (.jobj []))) from rfl,
    show popHash [("hash", .jstr (hashFn (dumpsSorted (.jobj []))))] = [] from rfl]
  rw [if_pos rfl]
  rfl

/-- C5: saving any game state whose quest store is in the QuestManager
normal form (as every state the program persists is) and loading the
unmodified stored document passes the digest check and restores the exact
same in-memory state, quest pool included; and loading a correctly-digested
document with every data key missing restores the documented defaults
(balance 100, empty inventory, all unlock flags false, hour 0, day 0, event
Nothing, level 0, xp 0, empty discovery, and a freshly filled quest pool). -/
theorem c5_save_load_roundtrip :
    (∀ (hashFn : String → String) (orc : String → Nat → Bool × Nat × Nat)
      (s : GameState), questsWF s.quests →
      load_game hashFn orc (save_game hashFn s) = .ok s) ∧
    (∀ (hashFn : String → String) (orc : String → Nat → Bool × Nat × Nat),
      load_game hashFn orc (.jobj [("hash", .jstr (hashFn (dumpsSorted (.jobj []))))]) =
        .ok (defaultLoadedState orc)) :=
  ⟨load_save_roundtrip, load_empty_defaults⟩

theorem c5_witness :
    load_game constHash sampleOracle (save_game constHash sampleState) =
      .ok sampleState :=
  c5_save_load_roundtrip.1 constHash sampleOracle sampleState (by decide)

/-! ## C1: tamper detection and the whitespace gap

The digest stored by save_game covers the canonical (sorted, compact)
re-serialization of the parsed fields, not the bytes of the stored file.
The file is written with indent=2, so it contains whitespace that json.load
discards; changing such a byte leaves the parsed document — and hence the
recomputed digest — identical, and the load succeeds. -/

theorem load_game_mismatch (hashFn : String → String)
    (orc : String → Nat → Bool × Nat × Nat) (kvs : List (String × JVal))
    (h : savedHashOf kvs ≠ some (hashFn (dumpsSorted (.jobj (popHash kvs))))) :
    load_game hashFn orc (.jobj kvs) = .error "tampered" := by
  unfold load_game
  dsimp only
  rw [if_neg h]

theorem joinSep_cons (sep x : String) (xs : List String) :
    ∃ t, joinSep sep (x :: xs) = x ++ t := by
  cases xs with
  | nil => exact ⟨"", by simp [joinSep]⟩
  | cons y ys => exact ⟨sep ++ joinSep sep (y :: ys), by simp [joinSep, String.append_assoc]⟩

theorem save_bytes_head (hashFn : String → String) (st : GameState) :
    ∃ r, (save_game_bytes hashFn st).data = '{' :: '\n' :: ' ' :: ' ' :: r := by
  have hs : save_game_bytes hashFn st =
      "\x7b\n" ++ joinSep ",\n"
        ((pad 2 ++ renderStr "balance" ++ ": " ++ dumpsIndent 2 (JVal.jnum st.balance)) ::
          dumpsIndentKVs 2 ((dataDict st).tail ++
            [("hash", JVal.jstr (hashFn (dumpsSorted (.jobj (dataDict st)))))])) ++
        "\n" ++ pad 0 ++ "\x7d" := rfl
  obtain ⟨t, ht⟩ := joinSep_cons ",\n"
    (pad 2 ++ renderStr "balance" ++ ": " ++ dumpsIndent 2 (JVal.jnum st.balance))
    (dumpsIndentKVs 2 ((dataDict st).tail ++
      [("hash", JVal.jstr (hashFn (dumpsSorted (.jobj (dataDict st)))))]))
  rw [hs, ht]
  refine ⟨((renderStr "balance" ++ ": " ++ dumpsIndent 2 (JVal.jnum st.balance) ++ t) ++
    ("\n" ++ pad 0 ++ "\x7d")).data, ?_⟩
  simp only [show ∀ a b : String, (a ++ b).data = a.data ++ b.data from fun _ _ => rfl,
    show ("\x7b\n").data = ['{', '\n'] from rfl,
    show (pad 2).data = [' ', ' '] from rfl,
    List.append_assoc, List.cons_append, List.nil_append]

theorem parseVal_ws_tamper (n : Nat) (r : List Char) :
    parseVal n ('{' :: '\n' :: '\t' :: ' ' :: r) =
      parseVal n ('{' :: '\n' :: ' ' :: ' ' :: r) := by
  cases n <;> rfl

theorem loads_ws_tamper (s1 s2 : String) (r : List Char)
    (h1 : s1.data = '{' :: '\n' :: ' ' :: ' ' :: r)
    (h2 : s2.data = '{' :: '\n' :: '\t' :: ' ' :: r)
    (hlen : s2.length = s1.length) :
    loads s2 = loads s1 := by
  unfold loads
  rw [h1, h2, hlen, parseVal_ws_tamper]

theorem tamper_ws_load_eq (hashFn : String → String)
    (orc : String → Nat → Bool × Nat × Nat) (st : GameState) :
    load_game_bytes hashFn orc (tamperAt (save_game_bytes hashFn st) 2 '\t') =
      load_game_bytes hashFn orc (save_game_bytes hashFn st) := by
  obtain ⟨r, hr⟩ := save_bytes_head hashFn st
  have hd : (tamperAt (save_game_bytes hashFn st) 2 '\t').data =
      '{' :: '\n' :: '\t' :: ' ' :: r := by
    show ((save_game_bytes hashFn st).data.set 2 '\t') = _
    rw [hr]
    rfl
  have hlen : (tamperAt (save_game_bytes hashFn st) 2 '\t').length =
      (save_game_bytes hashFn st).length := by
    show (tamperAt (save_game_bytes hashFn st) 2 '\t').data.length =
      (save_game_bytes hashFn st).data.length
    rw [hd, hr]
    simp
  unfold load_game_bytes
  rw [loads_ws_tamper _ _ r hr hd hlen]

/-- C1 counterexample: for a concrete saved state in the exact shape the
program persists (all six zones at ten quests each), the stored document has
a whitespace byte at position 2 (part of the indent=2 formatting, not of any
field and not of the digest, which is the last key of the document);
replacing that byte with a tab yields a genuinely different stored byte
string whose load pipeline result is identical to the untampered one, and
the untampered document loads successfully — so this single-byte tamper is
not detected by the integrity check, contradicting the claim that flipping
any single byte outside the digest field makes the load fail. -/
theorem c1_counterexample :
    (save_game_bytes constHash sampleState).data.get? 2 = some ' ' ∧
    tamperAt (save_game_bytes constHash sampleState) 2 '\t' ≠
      save_game_bytes constHash sampleState ∧
    load_game_bytes constHash sampleOracle
        (tamperAt (save_game_bytes constHash sampleState) 2 '\t') =
      load_game_bytes constHash sampleOracle (save_game_bytes constHash sampleState) ∧
    load_game constHash sampleOracle (save_game constHash sampleState) =
      .ok sampleState := by
  obtain ⟨r, hr⟩ := save_bytes_head constHash sampleState
  refine ⟨by rw [hr]; rfl, ?_, tamper_ws_load_eq constHash sampleOracle sampleState,
    load_save_roundtrip constHash sampleOracle sampleState (by decide)⟩
  intro he
  have hdata := congrArg String.data he
  have hd : (tamperAt (save_game_bytes constHash sampleState) 2 '\t').data =
      '{' :: '\n' :: '\t' :: ' ' :: r := by
    show ((save_game_bytes constHash sampleState).data.set 2 '\t') = _
    rw [hr]
    rfl
  rw [hd, hr] at hdata
  simp at hdata

/-- C1 amended: on load the digest is recomputed over all fields except the
stored digest and compared, and on mismatch the load is a fatal
tamper-detection failure (the session exits).  The detection however covers
only the parsed field content, not the stored bytes: the digest is computed
over the canonical compact re-serialization of the parsed document, while
the document is stored with indent=2 formatting, so changing one of its
insignificant whitespace bytes (such as byte 2 of the file, for any saved
state) leaves the parsed fields and the recomputed digest identical and the
load proceeds exactly as for the untampered file.  Only single-byte changes
that alter the parsed field content can make the digest comparison fail. -/
theorem c1_digest_mismatch_fatal_and_whitespace_gap :
    (∀ (hashFn : String → String) (orc : String → Nat → Bool × Nat × Nat)
      (kvs : List (String × JVal)),
      savedHashOf kvs ≠ some (hashFn (dumpsSorted (.jobj (popHash kvs)))) →
      load_game hashFn orc (.jobj kvs) = .error "tampered") ∧
    (∀ (hashFn : String → String) (orc : String → Nat → Bool × Nat × Nat)
      (st : GameState),
      load_game_bytes hashFn orc (tamperAt (save_game_bytes hashFn st) 2 '\t') =
        load_game_bytes hashFn orc (save_game_bytes hashFn st)) :=
  ⟨load_game_mismatch, tamper_ws_load_eq⟩

theorem c1_witness :
    load_game constHash sampleOracle (.jobj [("hash", .jstr "x")]) =
      .error "tampered" :=
  c1_digest_mismatch_fatal_and_whitespace_gap.1 constHash sampleOracle
    [("hash", .jstr "x")] (by decide)

end Fishing
